import Mathlib

/-!
# Shallow embedding of the buscaminas-inteligente deduction core

This file embeds, in Lean 4, the data model and the algorithms of the
repository's deduction/probability/memory subsystem:

* `Celda` / `Tablero`        — src/modelos/Celda.js, src/modelos/Tablero.js
* `GestorBanderas`           — src/logica/GestorBanderas.js
* `MotorProbabilidad`        — src/logica/MotorProbabilidad.js
* `GestorMemoria`            — src/logica/GestorMemoria.js (contradiction part)

Modelling conventions, used consistently below:

* JavaScript IEEE-754 numbers are modelled as exact rationals (`ℚ`); integer
  counters as `ℕ`/`ℤ`.  All literals appearing in the source (`0.18`, `0.3`,
  `0.99`, `1e-10`, …) are exactly representable and are carried over verbatim.
* `Math.sqrt` (used once, for a confidence bonus) is modelled by a
  six-decimal-digit under-approximation `jsSqrt`; every theorem below depends
  only on comparisons whose two sides are far more than `10⁻⁶` apart.
* The two string enumerations of the source — cell values `'', '0'..'8', 'M'`
  and provenance tags `'revelada', …, 'inicial'` — become the inductive types
  `Valor` and `Origen`.
* Mutation of the board becomes explicit state passing: functions take and
  return a `Tablero`.  Where the source caches `celda.restricciones` behind
  the `restriccionesActualizadas` dirty flag, the embedding computes the same
  lists functionally (`restriccionesDe`); both engine entry points recompute
  the cache when dirty and never mutate reveal/flag state during a run, so the
  cached and the functional lists coincide at every read.
* Arrays read out of range yield `undefined` in JavaScript and then `NaN` in
  arithmetic; inside the Gaussian elimination of `GestorBanderas` this is
  reachable, so its matrix entries are modelled as `Option ℚ` with `none`
  standing for NaN/undefined (arithmetic propagates `none`, comparisons with
  `none` are false, exactly as for NaN).
* Purely informational fields that no control flow ever reads (log strings,
  timestamps, the `iteracion` counter attached to produced flags, the
  `casosAnalizados` / `registroCalculos` telemetry of the probability engine)
  are omitted.
-/

set_option maxHeartbeats 1000000
set_option maxRecDepth 10000

set_option allowUnsafeReducibility true

attribute [local semireducible] Rat.mul Rat.add Rat.sub Rat.inv Rat.div
  Rat.ofScientific

namespace Buscaminas

/-! ## Cell values (`'', '0'..'8', 'M'` plus digit strings) -/

/-- A revealed cell's value: the empty string, a numeric string, or the mine
marker `'M'` (src/modelos/Celda.js, `valor`). -/
inductive Valor where
  | vacia : Valor
  | num : ℕ → Valor
  | mina : Valor
deriving DecidableEq, Repr

/-- Provenance tags passed to `actualizarProbabilidades` anywhere in the
codebase, plus the ones listed in the `jerarquia` table. -/
inductive Origen where
  | revelada | bandera | analisis100 | restricciones | patron | subconjunto
  | probabilidad | memoria | estrategia | inicial
  | base | aislada | frontera | noFrontera | normalizado
deriving DecidableEq, Repr

/-- The `jerarquia` table of `esOrigenMasConfiable` (src/modelos/Celda.js):
tags absent from the table score `jerarquia[origen] || 0 = 0`. -/
def jerarquia : Origen → ℕ
  | .revelada => 10
  | .bandera => 9
  | .analisis100 => 8
  | .restricciones => 7
  | .patron => 6
  | .subconjunto => 5
  | .probabilidad => 4
  | .memoria => 3
  | .estrategia => 2
  | .inicial => 1
  | _ => 0

/-- `esOrigenMasConfiable(origenNuevo, origenActual)` (src/modelos/Celda.js). -/
def esOrigenMasConfiable (origenNuevo origenActual : Origen) : Bool :=
  jerarquia origenNuevo > jerarquia origenActual

/-- One entry of the bounded `calculosAnteriores` history. -/
structure CalculoAnterior where
  probabilidadMina : ℚ
  probabilidadSegura : ℚ
  confianza : ℚ
  origen : Origen
deriving DecidableEq, Repr

/-- The `probabilidades` record of a cell (src/modelos/Celda.js constructor). -/
structure Probabilidades where
  probabilidadMina : ℚ
  probabilidadSegura : ℚ
  confianza : ℚ
  origen : Origen
  calculosAnteriores : List CalculoAnterior
deriving DecidableEq, Repr

/-- Initial probability record of a fresh cell. -/
def Probabilidades.inicial : Probabilidades :=
  { probabilidadMina := 0.5, probabilidadSegura := 0.5, confianza := 0,
    origen := .inicial, calculosAnteriores := [] }

/-- A cell of the board (src/modelos/Celda.js constructor).  `valor` is `none`
until the cell is revealed. -/
structure Celda where
  fila : ℕ
  columna : ℕ
  descubierta : Bool
  tieneBandera : Bool
  valor : Option Valor
  probabilidades : Probabilidades
  esEsquina : Bool
  esBorde : Bool
  distanciaBorde : ℕ
deriving DecidableEq, Repr

namespace Celda

/-- `Celda.actualizarProbabilidades(probMina, confianza, origen)`: the guarded
estimate update, pushing the previous record onto the bounded (5) history. -/
def actualizarProbabilidades (cd : Celda) (probMina confianza : ℚ)
    (origen : Origen) : Celda :=
  if confianza > cd.probabilidades.confianza ∨
     (confianza = cd.probabilidades.confianza ∧
      esOrigenMasConfiable origen cd.probabilidades.origen) then
    let hist := cd.probabilidades.calculosAnteriores ++
      [{ probabilidadMina := cd.probabilidades.probabilidadMina,
         probabilidadSegura := cd.probabilidades.probabilidadSegura,
         confianza := cd.probabilidades.confianza,
         origen := cd.probabilidades.origen }]
    let hist := if hist.length > 5 then hist.tail else hist
    { cd with probabilidades :=
      { probabilidadMina := probMina, probabilidadSegura := 1 - probMina,
        confianza := confianza, origen := origen, calculosAnteriores := hist } }
  else cd

/-- `Celda.establecerValor(valor)`: reveal the cell with the given value. -/
def establecerValor (cd : Celda) (v : Valor) : Celda :=
  { cd with
    valor := some v
    descubierta := true
    probabilidades :=
      { cd.probabilidades with
        probabilidadMina := if v = .mina then 1 else 0
        probabilidadSegura := if v = .mina then 0 else 1
        confianza := 1
        origen := .revelada } }

/-- `Celda.establecerBandera(tieneBandera)`: set or clear the flag.  Note that
on clearing, the probability record is left exactly as it was. -/
def establecerBandera (cd : Celda) (b : Bool) : Celda :=
  { cd with
    tieneBandera := b
    probabilidades :=
      { cd.probabilidades with
        probabilidadMina := if b then 1 else cd.probabilidades.probabilidadMina
        probabilidadSegura := if b then 0 else cd.probabilidades.probabilidadSegura
        confianza := if b then 1 else cd.probabilidades.confianza
        origen := if b then .bandera else cd.probabilidades.origen } }

/-- `Celda.tieneValorNumerico()`: revealed, non-null, non-empty, non-mine,
numeric. -/
def tieneValorNumerico (cd : Celda) : Bool :=
  cd.descubierta ∧ cd.valor ≠ none ∧ cd.valor ≠ some .vacia ∧
    cd.valor ≠ some .mina

/-- `Celda.obtenerValorNumerico()`: `''` and `'0'` map to 0, other numeric
strings parse, anything else is `null`. -/
def obtenerValorNumerico (cd : Celda) : Option ℕ :=
  if cd.valor = some .vacia then some 0
  else if cd.valor = some (.num 0) then some 0
  else if cd.tieneValorNumerico then
    match cd.valor with
    | some (.num n) => some n
    | _ => none
  else none

/-- `Celda.es100PorCientoSegura()`. -/
def es100PorCientoSegura (cd : Celda) : Bool :=
  cd.probabilidades.probabilidadSegura = 1 ∧ cd.probabilidades.confianza = 1

/-- `Celda.es100PorCientoMina()`. -/
def es100PorCientoMina (cd : Celda) : Bool :=
  cd.probabilidades.probabilidadMina = 1 ∧ cd.probabilidades.confianza = 1

end Celda

/-! ## The board (src/modelos/Tablero.js) -/

/-- The `ultimoCambio` record: last mutation applied to the board. -/
inductive UltimoCambio where
  | inicial : UltimoCambio
  | descubierta : ℕ → ℕ → Valor → UltimoCambio
  | bandera : ℕ → ℕ → Bool → UltimoCambio
deriving DecidableEq, Repr

/-- The board (src/modelos/Tablero.js constructor).  `celdas` is the row-major
matrix of cells; the counters and the `restriccionesActualizadas` dirty flag
are carried exactly as in the source. -/
structure Tablero where
  filas : ℕ
  columnas : ℕ
  celdas : List (List Celda)
  contadorDescubiertas : ℤ
  contadorBanderas : ℤ
  restriccionesActualizadas : Bool
  ultimoCambio : UltimoCambio
deriving DecidableEq, Repr

namespace Tablero

/-- `Tablero.esPosicionValida(fila, columna)`. -/
def esPosicionValida (t : Tablero) (fila columna : ℤ) : Bool :=
  fila ≥ 0 ∧ fila < t.filas ∧ columna ≥ 0 ∧ columna < t.columnas

/-- One fresh cell with its geometry, as produced by `inicializarTablero`
followed by `marcarCeldasEspeciales`. -/
def celdaInicial (filas columnas fila columna : ℕ) : Celda :=
  { fila := fila, columna := columna, descubierta := false,
    tieneBandera := false, valor := none,
    probabilidades := Probabilidades.inicial,
    esEsquina := (fila = 0 ∨ fila = filas - 1) ∧ (columna = 0 ∨ columna = columnas - 1),
    esBorde := fila = 0 ∨ fila = filas - 1 ∨ columna = 0 ∨ columna = columnas - 1,
    distanciaBorde := min (min fila (filas - 1 - fila)) (min columna (columnas - 1 - columna)) }

/-- `new Tablero(filas, columnas)`. -/
def crear (filas columnas : ℕ) : Tablero :=
  { filas := filas, columnas := columnas,
    celdas := (List.range filas).map fun f =>
      (List.range columnas).map fun c => celdaInicial filas columnas f c,
    contadorDescubiertas := 0, contadorBanderas := 0,
    restriccionesActualizadas := false, ultimoCambio := .inicial }

/-- `Tablero.obtenerCelda(fila, columna)`: the cell, or `none` (JS `null`) when
the position is out of range. -/
def obtenerCelda (t : Tablero) (fila columna : ℤ) : Option Celda :=
  if t.esPosicionValida fila columna then
    (t.celdas.get? fila.toNat).bind fun row => row.get? columna.toNat
  else none

/-- Replace the cell at an (in-range) position by applying `g` to it. -/
def modificarCelda (t : Tablero) (fila columna : ℕ) (g : Celda → Celda) : Tablero :=
  { t with celdas := t.celdas.modify (fun row => row.modify g columna) fila }

/-- `Tablero.establecerValorCelda(fila, columna, valor)`: returns the mutated
board and the JS return value. -/
def establecerValorCelda (t : Tablero) (fila columna : ℤ) (v : Valor) :
    Tablero × Bool :=
  match t.obtenerCelda fila columna with
  | some cd =>
    if cd.descubierta then (t, false)
    else
      ({ t.modificarCelda fila.toNat columna.toNat (fun c => c.establecerValor v) with
          contadorDescubiertas := t.contadorDescubiertas + 1,
          ultimoCambio := .descubierta fila.toNat columna.toNat v,
          restriccionesActualizadas := false }, true)
  | none => (t, false)

/-- `Tablero.establecerBandera(fila, columna, tieneBandera)`: returns the
mutated board and the JS return value. -/
def establecerBandera (t : Tablero) (fila columna : ℤ) (b : Bool) :
    Tablero × Bool :=
  match t.obtenerCelda fila columna with
  | some cd =>
    if cd.descubierta then (t, false)
    else if cd.tieneBandera = b then (t, false)
    else
      ({ t.modificarCelda fila.toNat columna.toNat (fun c => c.establecerBandera b) with
          contadorBanderas := t.contadorBanderas + (if b then 1 else -1),
          ultimoCambio := .bandera fila.toNat columna.toNat b,
          restriccionesActualizadas := false }, true)
  | none => (t, false)

/-- The eight neighbour offsets in the `i`-outer, `j`-inner order of
`obtenerCeldasAdyacentes`. -/
def offsetsAdyacentes : List (ℤ × ℤ) :=
  [(-1, -1), (-1, 0), (-1, 1), (0, -1), (0, 1), (1, -1), (1, 0), (1, 1)]

/-- `Tablero.obtenerCeldasAdyacentes(fila, columna)`: up to eight neighbours in
deterministic row-major offset order, out-of-grid positions skipped. -/
def obtenerCeldasAdyacentes (t : Tablero) (fila columna : ℤ) : List Celda :=
  offsetsAdyacentes.filterMap fun (i, j) => t.obtenerCelda (fila + i) (columna + j)

/-- `Tablero.obtenerCeldasSinRevolar()`. -/
def obtenerCeldasSinRevolar (t : Tablero) : List Celda :=
  t.celdas.flatten.filter fun cd => ¬cd.descubierta

/-- `Tablero.obtenerCeldasConBandera()`. -/
def obtenerCeldasConBandera (t : Tablero) : List Celda :=
  t.celdas.flatten.filter fun cd => cd.tieneBandera

/-- `Tablero.obtenerCeldasNumericas()`. -/
def obtenerCeldasNumericas (t : Tablero) : List Celda :=
  t.celdas.flatten.filter fun cd => cd.tieneValorNumerico

/-- `Tablero.obtenerCeldasConCertezaDeMina()`. -/
def obtenerCeldasConCertezaDeMina (t : Tablero) : List Celda :=
  t.celdas.flatten.filter fun cd =>
    ¬cd.descubierta ∧ ¬cd.tieneBandera ∧ cd.es100PorCientoMina

/-- `Tablero.obtenerCeldasConCertezaDeSeguridad()`. -/
def obtenerCeldasConCertezaDeSeguridad (t : Tablero) : List Celda :=
  t.celdas.flatten.filter fun cd =>
    ¬cd.descubierta ∧ ¬cd.tieneBandera ∧ cd.es100PorCientoSegura

end Tablero

/-! ## Constraints (`Tablero.actualizarRestricciones`) -/

/-- One restriction record, as built by `Tablero.actualizarRestricciones` and
attached to every unrevealed neighbour of a revealed numeric cell. -/
structure Restriccion where
  celdaOrigen : ℕ × ℕ
  valor : ℕ
  banderasColocadas : ℕ
  minasRestantes : ℤ
  celdasAfectadas : List (ℕ × ℕ)
deriving DecidableEq, Repr

/-- `obtenerValorNumerico` at a call site that already checked
`tieneValorNumerico` (where JS would never see the `null`). -/
def valorNumericoD (cd : Celda) : ℕ := cd.obtenerValorNumerico.getD 0

namespace Tablero

/-- The restriction list `actualizarRestricciones` stores into
`celda.restricciones` for the cell at `(f, c)`, computed functionally: one
restriction per revealed numeric cell (in row-major order) that has at least
one unrevealed neighbour and counts `(f, c)` among them.  Origins are distinct,
so the `agregarRestriccion` de-duplication never fires.  The engines always
recompute the cache when dirty and never change reveal/flag state during a
run, so this coincides with the cached lists at every read. -/
def restriccionesDe (t : Tablero) (f c : ℕ) : List Restriccion :=
  (List.range t.filas).flatMap fun (fo : ℕ) =>
    (List.range t.columnas).filterMap fun (co : ℕ) =>
      match t.obtenerCelda (fo : ℤ) (co : ℤ) with
      | some cr =>
        if cr.tieneValorNumerico then
          let ady := t.obtenerCeldasAdyacentes (fo : ℤ) (co : ℤ)
          let sinRev := ady.filter fun x => ¬x.descubierta
          if sinRev.length > 0 ∧
             sinRev.any (fun x => x.fila == f && x.columna == c) then
            let band := (ady.filter fun x => x.tieneBandera).length
            some { celdaOrigen := (fo, co), valor := valorNumericoD cr,
                   banderasColocadas := band,
                   minasRestantes := (valorNumericoD cr : ℤ) - band,
                   celdasAfectadas := sinRev.map fun x => (x.fila, x.columna) }
          else none
        else none
      | none => none

end Tablero

/-! ## The flag engine (src/logica/GestorBanderas.js) -/

/-- One entry of `banderasColocadas` as produced by `marcarParaBandera`.  The
informational `origen` description string and `iteracion` counter, which no
control flow reads, are omitted. -/
structure Bandera where
  fila : ℕ
  columna : ℕ
deriving DecidableEq, Repr

/-- Membership of a position in a flag batch
(`this.banderasColocadas.some(b => b.fila === ... && b.columna === ...)`). -/
def posEnBanderas (acc : List Bandera) (f c : ℕ) : Bool :=
  acc.any fun b => b.fila == f && b.columna == c

/-- The number of cells adjacent to `(f, c)` that already carry a flag or
appear in the batch `acc` — the flag count the global filter guards. -/
def conteoBanderasCon (t : Tablero) (acc : List Bandera) (f c : ℤ) : ℕ :=
  ((t.obtenerCeldasAdyacentes f c).filter fun x =>
    x.tieneBandera || posEnBanderas acc x.fila x.columna).length

/-- `GestorBanderas.esConsistenteGlobal(bandera)`: simulate placing the
candidate and check every restriction referencing its cell, counting existing
flags, candidates accepted so far (`acc`) and the candidate itself. -/
def esConsistenteGlobal (t : Tablero) (acc : List Bandera) (b : Bandera) : Bool :=
  (t.restriccionesDe b.fila b.columna).all fun r =>
    match t.obtenerCelda r.celdaOrigen.1 r.celdaOrigen.2 with
    | some cr =>
      if cr.tieneValorNumerico then
        ((t.obtenerCeldasAdyacentes r.celdaOrigen.1 r.celdaOrigen.2).filter fun x =>
          x.tieneBandera || posEnBanderas acc x.fila x.columna ||
          (x.fila == b.fila && x.columna == b.columna)).length ≤ valorNumericoD cr
      else true
    | none => true

/-- `GestorBanderas.validarConsistenciaGlobal()`: refilter the candidate list,
keeping each candidate only if it is globally consistent with the candidates
already kept. -/
def validarConsistenciaGlobal (t : Tablero) (candidatas : List Bandera) :
    List Bandera :=
  candidatas.foldl
    (fun acc b => if esConsistenteGlobal t acc b then acc ++ [b] else acc) []

/-- `GestorBanderas` state: the board plus the `banderasColocadas` batch being
assembled during one `colocarBanderasSeguras` run. -/
structure EstadoGB where
  tablero : Tablero
  banderasColocadas : List Bandera
deriving Repr

/-- Apply `celda.actualizarProbabilidades(p, conf, origen)` to the (live) cell
at `(f, c)` of the threaded board. -/
def actualizarProbEn (st : EstadoGB) (f c : ℕ) (p conf : ℚ) (o : Origen) :
    EstadoGB :=
  { st with tablero :=
      st.tablero.modificarCelda f c fun cd =>
        cd.actualizarProbabilidades p conf o }

/-- `GestorBanderas.esSeguroColocarBandera(celda)`: never flag an already
flagged or revealed cell, never flag next to a revealed empty/zero cell, and
never push a referencing constraint to (or past) its digit value counting
existing flags and candidates accepted so far. -/
def esSeguroColocarBandera (t : Tablero) (acc : List Bandera) (cd : Celda) :
    Bool :=
  if cd.tieneBandera ∨ cd.descubierta then false
  else
    let ady := t.obtenerCeldasAdyacentes cd.fila cd.columna
    if ady.any (fun a => a.descubierta &&
        (a.valor == some .vacia || a.valor == some (.num 0) ||
         a.obtenerValorNumerico == some 0)) then false
    else
      (t.restriccionesDe cd.fila cd.columna).all fun r =>
        match t.obtenerCelda r.celdaOrigen.1 r.celdaOrigen.2 with
        | some cr =>
          if cr.tieneValorNumerico then
            ((t.obtenerCeldasAdyacentes r.celdaOrigen.1 r.celdaOrigen.2).filter
              fun x => x.tieneBandera ||
                posEnBanderas acc x.fila x.columna).length < valorNumericoD cr
          else true
        | none => true

/-- The shared shape of every marking site of the flag engine: re-check
`esSeguroColocarBandera`, set the certainty estimate on the live cell, append
the flag to the batch (`marcarParaBandera`). -/
def intentarMarcar (st : EstadoGB) (f c : ℕ) (o : Origen) : EstadoGB :=
  match st.tablero.obtenerCelda (f : ℤ) (c : ℤ) with
  | some cd =>
    if esSeguroColocarBandera st.tablero st.banderasColocadas cd then
      let st := actualizarProbEn st f c 1 1 o
      { st with banderasColocadas := st.banderasColocadas ++ [⟨f, c⟩] }
    else st
  | none => st

/-- `GestorBanderas.analizarRestriccionesBasicas()`. -/
def analizarRestriccionesBasicas (st : EstadoGB) : EstadoGB :=
  (st.tablero.obtenerCeldasNumericas).foldl (fun st cn =>
    let valor := valorNumericoD cn
    let ady := st.tablero.obtenerCeldasAdyacentes cn.fila cn.columna
    let sinRevSinBand := ady.filter fun c => ¬c.descubierta && ¬c.tieneBandera
    let band := (ady.filter fun c => c.tieneBandera).length
    let minasFaltantes : ℤ := (valor : ℤ) - band
    if (sinRevSinBand.length : ℤ) = minasFaltantes ∧ minasFaltantes > 0 then
      sinRevSinBand.foldl
        (fun st c => intentarMarcar st c.fila c.columna .analisis100) st
    else st) st

/-- `GestorBanderas.esSubconjunto(conjuntoA, conjuntoB)`. -/
def esSubconjunto (a b : List Celda) : Bool :=
  if a.length > b.length then false
  else a.all fun x => b.any fun y => x.fila == y.fila && x.columna == y.columna

/-- `GestorBanderas.aplicarAnalisisSubconjunto(...)`: when the superset's
extra cells must hold exactly the difference of remaining mines, flag them. -/
def aplicarAnalisisSubconjunto (st : EstadoGB) (cSub cSup : Celda)
    (adySub adySup : List Celda) : EstadoGB :=
  let bSub := (adySub.filter fun c => c.tieneBandera).length
  let bSup := (adySup.filter fun c => c.tieneBandera).length
  let mSub : ℤ := (valorNumericoD cSub : ℤ) - bSub
  let mSup : ℤ := (valorNumericoD cSup : ℤ) - bSup
  let diferencia := adySup.filter fun c =>
    ¬adySub.any fun s => s.fila == c.fila && s.columna == c.columna
  let minasDiferencia := mSup - mSub
  if (diferencia.length : ℤ) = minasDiferencia ∧ minasDiferencia > 0 then
    diferencia.foldl (fun st c =>
      if ¬c.tieneBandera ∧ ¬c.descubierta then
        intentarMarcar st c.fila c.columna .analisis100
      else st) st
  else st

/-- `GestorBanderas.analizarInterseccionParcial(...)`: mine bounds over the
partial intersection of two constraints; exclusive sides proved safe when the
other side fits in the intersection; a pinned intersection is all mines. -/
def analizarInterseccionParcial (st : EstadoGB) (cA cB : Celda)
    (adyA adyB : List Celda) : EstadoGB :=
  let interseccion := adyA.filter fun c =>
    adyB.any fun y => c.fila == y.fila && c.columna == y.columna
  if interseccion.length > 0 ∧ interseccion.length < adyA.length ∧
     interseccion.length < adyB.length then
    let bA := (adyA.filter fun c => c.tieneBandera).length
    let bB := (adyB.filter fun c => c.tieneBandera).length
    let bI := (interseccion.filter fun c => c.tieneBandera).length
    let mA : ℤ := (valorNumericoD cA : ℤ) - bA
    let mB : ℤ := (valorNumericoD cB : ℤ) - bB
    let soloA := adyA.filter fun c =>
      ¬interseccion.any fun y => c.fila == y.fila && c.columna == y.columna
    let soloB := adyB.filter fun c =>
      ¬interseccion.any fun y => c.fila == y.fila && c.columna == y.columna
    let st :=
      if mA ≤ (interseccion.length : ℤ) - bI ∧ soloA.length > 0 then
        soloA.foldl (fun st c =>
          if ¬c.descubierta ∧ ¬c.tieneBandera then
            actualizarProbEn st c.fila c.columna 0 1 .analisis100
          else st) st
      else st
    let st :=
      if mB ≤ (interseccion.length : ℤ) - bI ∧ soloB.length > 0 then
        soloB.foldl (fun st c =>
          if ¬c.descubierta ∧ ¬c.tieneBandera then
            actualizarProbEn st c.fila c.columna 0 1 .analisis100
          else st) st
      else st
    let minasMax := min mA mB
    let minasMinA := max 0 (mA - soloA.length)
    let minasMinB := max 0 (mB - soloB.length)
    let minasMin := max minasMinA minasMinB
    if minasMin = minasMax ∧ minasMin = (interseccion.length : ℤ) - bI then
      interseccion.foldl (fun st c =>
        if ¬c.descubierta ∧ ¬c.tieneBandera then
          intentarMarcar st c.fila c.columna .analisis100
        else st) st
    else st
  else st

/-- `GestorBanderas.analizarSubconjuntos()`: every ordered pair of distinct
numeric cells, subset analysis both ways plus partial intersections. -/
def analizarSubconjuntos (st : EstadoGB) : EstadoGB :=
  let nums := st.tablero.obtenerCeldasNumericas
  (List.range nums.length).foldl (fun st i =>
    (List.range nums.length).foldl (fun st j =>
      if i = j then st
      else
        match nums.get? i, nums.get? j with
        | some cA, some cB =>
          let adyA := (st.tablero.obtenerCeldasAdyacentes cA.fila cA.columna).filter
            fun c => ¬c.descubierta
          let adyB := (st.tablero.obtenerCeldasAdyacentes cB.fila cB.columna).filter
            fun c => ¬c.descubierta
          let st :=
            if esSubconjunto adyA adyB then
              aplicarAnalisisSubconjunto st cA cB adyA adyB
            else if esSubconjunto adyB adyA then
              aplicarAnalisisSubconjunto st cB cA adyB adyA
            else st
          analizarInterseccionParcial st cA cB adyA adyB
        | _, _ => st) st) st

/-- `GestorBanderas.buscarPatron121()`: a collinear `1-2-1` pins the two cells
adjacent only to the middle `2`. -/
def buscarPatron121 (st : EstadoGB) : EstadoGB :=
  (List.range st.tablero.filas).foldl (fun st f =>
    (List.range st.tablero.columnas).foldl (fun st c =>
      [((1 : ℤ), (0 : ℤ)), (0, 1)].foldl (fun st dir =>
        let dx := dir.1
        let dy := dir.2
        if (f : ℤ) + 2 * dy < st.tablero.filas ∧
           (c : ℤ) + 2 * dx < st.tablero.columnas then
          match st.tablero.obtenerCelda f c,
            st.tablero.obtenerCelda ((f : ℤ) + dy) ((c : ℤ) + dx),
            st.tablero.obtenerCelda ((f : ℤ) + 2 * dy) ((c : ℤ) + 2 * dx) with
          | some c1, some c2, some c3 =>
            if c1.tieneValorNumerico ∧ valorNumericoD c1 = 1 ∧
               c2.tieneValorNumerico ∧ valorNumericoD c2 = 2 ∧
               c3.tieneValorNumerico ∧ valorNumericoD c3 = 1 then
              let a1 := st.tablero.obtenerCeldasAdyacentes c1.fila c1.columna
              let a2 := st.tablero.obtenerCeldasAdyacentes c2.fila c2.columna
              let a3 := st.tablero.obtenerCeldasAdyacentes c3.fila c3.columna
              let soloDel2 := a2.filter fun x =>
                ¬(a1.any fun y => y.fila == x.fila && y.columna == x.columna) &&
                ¬(a3.any fun y => y.fila == x.fila && y.columna == x.columna) &&
                ¬x.descubierta
              if soloDel2.length = 2 then
                soloDel2.foldl (fun st x =>
                  if ¬x.tieneBandera then intentarMarcar st x.fila x.columna .patron
                  else st) st
              else st
            else st
          | _, _, _ => st
        else st) st) st) st

/-- `GestorBanderas.buscarPatron11Esquina()`: two `1`s whose single unrevealed
unflagged neighbour is the same shared cell pin that cell. -/
def buscarPatron11Esquina (st : EstadoGB) : EstadoGB :=
  (List.range st.tablero.filas).foldl (fun st f =>
    (List.range st.tablero.columnas).foldl (fun st c =>
      [((0 : ℤ), (-1 : ℤ), (-1 : ℤ), (0 : ℤ)), (0, -1, 1, 0),
       (0, 1, -1, 0), (0, 1, 1, 0)].foldl (fun st esq =>
        let (dx1, dy1, dx2, dy2) := esq
        if (f : ℤ) + dy1 ≥ 0 ∧ (f : ℤ) + dy1 < st.tablero.filas ∧
           (c : ℤ) + dx1 ≥ 0 ∧ (c : ℤ) + dx1 < st.tablero.columnas ∧
           (f : ℤ) + dy2 ≥ 0 ∧ (f : ℤ) + dy2 < st.tablero.filas ∧
           (c : ℤ) + dx2 ≥ 0 ∧ (c : ℤ) + dx2 < st.tablero.columnas then
          match st.tablero.obtenerCelda f c,
            st.tablero.obtenerCelda ((f : ℤ) + dy1) ((c : ℤ) + dx1),
            st.tablero.obtenerCelda ((f : ℤ) + dy2) ((c : ℤ) + dx2) with
          | some cc, some c1, some c2 =>
            if c1.tieneValorNumerico ∧ valorNumericoD c1 = 1 ∧
               c2.tieneValorNumerico ∧ valorNumericoD c2 = 1 ∧
               ¬cc.descubierta ∧ ¬cc.tieneBandera then
              let a1 := (st.tablero.obtenerCeldasAdyacentes c1.fila c1.columna).filter
                fun x => ¬x.descubierta && ¬x.tieneBandera
              let a2 := (st.tablero.obtenerCeldasAdyacentes c2.fila c2.columna).filter
                fun x => ¬x.descubierta && ¬x.tieneBandera
              match a1, a2 with
              | [u1], [u2] =>
                if u1.fila = cc.fila ∧ u1.columna = cc.columna ∧
                   u2.fila = cc.fila ∧ u2.columna = cc.columna then
                  intentarMarcar st cc.fila cc.columna .patron
                else st
              | _, _ => st
            else st
          | _, _, _ => st
        else st) st) st) st

/-- `GestorBanderas.buscarPatronBorde()`: an edge `1` with exactly one
unrevealed unflagged neighbour pins that neighbour. -/
def buscarPatronBorde (st : EstadoGB) : EstadoGB :=
  (List.range st.tablero.filas).foldl (fun st f =>
    (List.range st.tablero.columnas).foldl (fun st c =>
      match st.tablero.obtenerCelda f c with
      | some cd =>
        if cd.esBorde ∧ cd.tieneValorNumerico ∧ valorNumericoD cd = 1 then
          match (st.tablero.obtenerCeldasAdyacentes f c).filter
              (fun x => ¬x.descubierta && ¬x.tieneBandera) with
          | [celdaMina] => intentarMarcar st celdaMina.fila celdaMina.columna .patron
          | _ => st
        else st
      | none => st) st) st

/-- `GestorBanderas.analizarPatrones()`. -/
def analizarPatrones (st : EstadoGB) : EstadoGB :=
  buscarPatronBorde (buscarPatron11Esquina (buscarPatron121 st))

/-! ### The linear-system pass and its JS-faithful Gaussian elimination -/

/-- Read `aug[i][j]`: out of range gives `none`, the JS `undefined` whose
arithmetic is NaN and whose comparisons are all false. -/
def filaGet (aug : List (List ℚ)) (i j : ℕ) : Option ℚ :=
  (aug.get? i).bind fun row => row.get? j

/-- `Math.abs(a) > Math.abs(b)` with `undefined`/NaN giving `false`. -/
def jabsGtO (a b : Option ℚ) : Bool :=
  match a, b with
  | some x, some y => |x| > |y|
  | _, _ => false

/-- `Math.abs(a) > q` with `undefined`/NaN giving `false`. -/
def jabsGtQ (a : Option ℚ) (q : ℚ) : Bool :=
  match a with
  | some x => |x| > q
  | none => false

/-- `a >= q` with `undefined`/NaN giving `false`. -/
def jGeQ (a : Option ℚ) (q : ℚ) : Bool :=
  match a with
  | some x => x ≥ q
  | none => false

/-- Write `aug[i][j] = v`. -/
def setMat (aug : List (List ℚ)) (i j : ℕ) (v : ℚ) : List (List ℚ) :=
  aug.modify (fun row => row.set j v) i

/-- Swap two rows. -/
def swapRows (aug : List (List ℚ)) (i j : ℕ) : List (List ℚ) :=
  let ri := aug.getD i []
  let rj := aug.getD j []
  (aug.set i rj).set j ri

/-- `soluciones[i] = v`, extending the array by one like a JS index assignment
at `i = length` (larger `i` is unreachable: it would need a nonzero pivot read
beyond the row). -/
def setOrExtend (sol : List ℚ) (i : ℕ) (v : ℚ) : List ℚ :=
  if i < sol.length then sol.set i v
  else sol ++ List.replicate (i - sol.length) 0 ++ [v]

/-- `GestorBanderas.eliminarGaussiana(matriz, vector)`: full Gauss–Jordan with
partial pivoting as written, including its behaviour on rows whose pivot
column lies beyond the matrix width (where JS reads `undefined`: every
comparison is false, so the row is skipped — except row `m`, whose "pivot" is
the augmented value column).  Returns `none` for the JS `null` when there are
more unknowns than equations. -/
def eliminarGaussiana (matriz : List (List ℚ)) (vector : List ℚ) :
    Option (List ℚ) :=
  let n := matriz.length
  let m := (matriz.headD []).length
  if m > n then none
  else
    let aug := List.zipWith (fun row v => row ++ [v]) matriz vector
    let aug := (List.range n).foldl (fun aug i =>
      let maxFila := (List.range' (i + 1) (n - (i + 1))).foldl (fun maxF j =>
        if jabsGtO (filaGet aug j i) (filaGet aug maxF i) then j else maxF) i
      let aug := if maxFila ≠ i then swapRows aug i maxFila else aug
      match filaGet aug i i with
      | none => aug
      | some piv =>
        if |piv| < 1e-10 then aug
        else
          let aug := (List.range' i (m + 1 - i)).foldl (fun aug j =>
            setMat aug i j ((filaGet aug i j).getD 0 / piv)) aug
          (List.range n).foldl (fun aug j =>
            if j ≠ i then
              let factor := (filaGet aug j i).getD 0
              (List.range' i (m + 1 - i)).foldl (fun aug k =>
                setMat aug j k
                  ((filaGet aug j k).getD 0 - factor * (filaGet aug i k).getD 0)) aug
            else aug) aug) aug
    let sol := (List.range n).foldl (fun sol i =>
      let s := (filaGet aug i m).getD 0
      let s := (List.range m).foldl (fun s j =>
        if i ≠ j ∧ jabsGtQ (filaGet aug i j) 1e-10 then
          s - (filaGet aug i j).getD 0 * sol.getD j 0
        else s) s
      if jabsGtQ (filaGet aug i i) 1e-10 then
        setOrExtend sol i (s / (filaGet aug i i).getD 0)
      else sol) (List.replicate m 0)
    some sol

/-- One restriction of a connected group, as assembled by
`agruparRestriccionesPorCeldasComunes` (`{celda, valor}`). -/
structure RestriccionGrupo where
  celda : Celda
  valor : ℕ
deriving Repr

/-- One connected group of the equation pass. -/
structure GrupoEcuaciones where
  restricciones : List RestriccionGrupo
  celdas : List Celda
deriving Repr

/-- BFS of `obtenerGrupoConectado`, with explicit fuel (the queue is bounded
by the total number of map pushes, far below the fuel used below). -/
def grupoConectadoAux (t : Tablero) (mapa : List ((ℕ × ℕ) × List Celda)) :
    ℕ → List Celda → List (ℕ × ℕ) → List RestriccionGrupo → List Celda →
    List (ℕ × ℕ) → List RestriccionGrupo × List Celda × List (ℕ × ℕ)
  | 0, _, procesadas, restrs, celdas, _ => (restrs, celdas, procesadas)
  | _ + 1, [], procesadas, restrs, celdas, _ => (restrs, celdas, procesadas)
  | fuel + 1, cr :: cola, procesadas, restrs, celdas, enGrupo =>
    if (cr.fila, cr.columna) ∈ procesadas then
      grupoConectadoAux t mapa fuel cola procesadas restrs celdas enGrupo
    else
      let procesadas := (cr.fila, cr.columna) :: procesadas
      let restrs := restrs ++ [⟨cr, valorNumericoD cr⟩]
      let ady := (t.obtenerCeldasAdyacentes cr.fila cr.columna).filter
        fun c => ¬c.descubierta
      let paso := ady.foldl (fun (acc : List Celda × List Celda × List (ℕ × ℕ)) c =>
        let (cola, celdas, enGrupo) := acc
        if (c.fila, c.columna) ∈ enGrupo then (cola, celdas, enGrupo)
        else
          let enGrupo := (c.fila, c.columna) :: enGrupo
          let celdas := celdas ++ [c]
          let nuevos := ((mapa.lookup (c.fila, c.columna)).getD []).filter
            fun r => (r.fila, r.columna) ∉ procesadas
          (cola ++ nuevos, celdas, enGrupo)) (cola, celdas, enGrupo)
      grupoConectadoAux t mapa fuel paso.1 procesadas restrs paso.2.1 paso.2.2

/-- `GestorBanderas.agruparRestriccionesPorCeldasComunes()`: the per-cell map
from unrevealed position to referencing numeric cells, then one BFS per
not-yet-processed numeric cell; only groups with at least two restrictions
are kept. -/
def agruparRestriccionesPorCeldasComunes (t : Tablero) : List GrupoEcuaciones :=
  let nums := t.obtenerCeldasNumericas
  let mapa := nums.foldl (fun (mapa : List ((ℕ × ℕ) × List Celda)) cn =>
    let ady := (t.obtenerCeldasAdyacentes cn.fila cn.columna).filter
      fun c => ¬c.descubierta
    if ady.length > 0 then
      ady.foldl (fun mapa c =>
        let clave := (c.fila, c.columna)
        match mapa.lookup clave with
        | some lst =>
          mapa.map fun par => if par.1 = clave then (par.1, lst ++ [cn]) else par
        | none => mapa ++ [(clave, [cn])]) mapa
    else mapa) []
  let fuel := (t.filas * t.columnas + 1) ^ 3
  (nums.foldl (fun (acc : List GrupoEcuaciones × List (ℕ × ℕ)) cn =>
    let (grupos, procesadas) := acc
    if (cn.fila, cn.columna) ∈ procesadas then acc
    else
      let g := grupoConectadoAux t mapa fuel [cn] procesadas [] [] []
      if g.1.length ≥ 2 then
        (grupos ++ [⟨g.1, g.2.1⟩], g.2.2)
      else (grupos, g.2.2)) ([], [])).1

/-- `GestorBanderas.resolverSistemaEcuaciones(grupo)`: one 0/1 row per
restriction over the group's cells, effective value = digit minus adjacent
flags, then Gaussian elimination. -/
def resolverSistemaEcuaciones (t : Tablero) (g : GrupoEcuaciones) :
    Option (List ℚ × List Celda) :=
  let matriz := g.restricciones.map fun r =>
    let ady := (t.obtenerCeldasAdyacentes r.celda.fila r.celda.columna).filter
      fun c => ¬c.descubierta
    g.celdas.map fun cel =>
      if ady.any (fun c => c.fila == cel.fila && c.columna == cel.columna) then
        (1 : ℚ)
      else 0
  let valores := g.restricciones.map fun r =>
    let band := ((t.obtenerCeldasAdyacentes r.celda.fila r.celda.columna).filter
      fun c => c.tieneBandera).length
    ((r.valor : ℚ) - band)
  match eliminarGaussiana matriz valores with
  | some soluciones => some (soluciones, g.celdas)
  | none => none

/-- `GestorBanderas.analizarSistemasEcuaciones()`: solve each group and flag
every unknown that resolved to (at least) `0.99`.  When the solver hands back
more solutions than cells — which happens for inconsistent over-determined
groups — the JS code dereferences `undefined` and the whole run throws
(caught per turn by the caller): modelled as `none`. -/
def analizarSistemasEcuaciones (st : EstadoGB) : Option EstadoGB :=
  (agruparRestriccionesPorCeldasComunes st.tablero).foldl (fun ost g =>
    ost.bind fun st =>
      if g.celdas.length ≥ 2 then
        match resolverSistemaEcuaciones st.tablero g with
        | some (soluciones, celdas) =>
          (List.range soluciones.length).foldl (fun ost i =>
            ost.bind fun st =>
              if jGeQ (soluciones.get? i) 0.99 then
                match celdas.get? i with
                | some cd =>
                  if ¬cd.tieneBandera ∧ ¬cd.descubierta then
                    some (intentarMarcar st cd.fila cd.columna .analisis100)
                  else some st
                | none => none
              else some st) (some st)
        | none => some st
      else some st) (some st)

/-- `GestorBanderas.validarConsistenciaGlobal()` applied to the state. -/
def validarConsistenciaGlobalGB (st : EstadoGB) : EstadoGB :=
  { st with banderasColocadas :=
      validarConsistenciaGlobal st.tablero st.banderasColocadas }

/-- `GestorBanderas.colocarBanderasSeguras()`: the four passes in order, then
the global filter; returns the batch and the (probability-updated) board, or
`none` when the equation pass throws. -/
def colocarBanderasSeguras (t : Tablero) : Option (List Bandera × Tablero) :=
  match analizarSistemasEcuaciones
      (analizarPatrones (analizarSubconjuntos
        (analizarRestriccionesBasicas ⟨t, []⟩))) with
  | some st =>
    some ((validarConsistenciaGlobalGB st).banderasColocadas,
      (validarConsistenciaGlobalGB st).tablero)
  | none => none

/-- `Juego.procesarNuevasBanderas(banderas)` (src/modelos/Juego.js): place each
batch flag on the board, skipping revealed or already-flagged cells. -/
def procesarNuevasBanderas (t : Tablero) (lote : List Bandera) : Tablero :=
  lote.foldl (fun t b =>
    match t.obtenerCelda (b.fila : ℤ) (b.columna : ℤ) with
    | some cd =>
      if ¬cd.descubierta ∧ ¬cd.tieneBandera then
        (t.establecerBandera (b.fila : ℤ) (b.columna : ℤ) true).1
      else t
    | none => t) t

/-- A cell with its probability record reset: the part of a cell the flag
engine never writes. -/
def celdaSinProb (cd : Celda) : Celda :=
  { cd with probabilidades := Probabilidades.inicial }

/-- Two boards agree except possibly on probability records. -/
def mismoEsqueleto (t0 t : Tablero) : Prop :=
  ∀ f c : ℤ, (t.obtenerCelda f c).map celdaSinProb =
    (t0.obtenerCelda f c).map celdaSinProb

/-- Every flag of the batch lies on a cell of `t0` that is unrevealed and not
yet flagged. -/
def loteSeguro (t0 : Tablero) (lote : List Bandera) : Prop :=
  ∀ b ∈ lote, ∃ cd, t0.obtenerCelda (b.fila : ℤ) (b.columna : ℤ) = some cd ∧
    cd.tieneBandera = false ∧ cd.descubierta = false

/-- Run invariant of the flag engine: the board keeps its reveal/flag/value
skeleton, and the batch only names unrevealed unflagged cells. -/
def invGB (t0 : Tablero) (st : EstadoGB) : Prop :=
  mismoEsqueleto t0 st.tablero ∧ loteSeguro t0 st.banderasColocadas

/-! ## The probability engine (src/logica/MotorProbabilidad.js) -/

/-- `Math.round` for the non-negative quantities it is applied to. -/
def jsRound (q : ℚ) : ℕ := (⌊q + 1/2⌋).toNat

/-- Binary search for the integer square root (largest `k` with `k·k ≤ n`),
with enough fuel for any operand below `2^64`. -/
def raizBin : ℕ → ℕ → ℕ → ℕ → ℕ
  | 0, lo, _, _ => lo
  | fuel + 1, lo, hi, n =>
    if hi ≤ lo + 1 then lo
    else
      let mid := (lo + hi) / 2
      if mid * mid ≤ n then raizBin fuel mid hi n else raizBin fuel lo mid n

/-- Integer square root via `raizBin`. -/
def raizEntera (n : ℕ) : ℕ := raizBin 64 0 (n + 1) n

/-- `Math.sqrt` on a natural operand, as a six-decimal-digit
under-approximation `⌊√n·10⁶⌋ / 10⁶`.  It is used only inside
`0.5 + 0.3 / √(groupSize)`; every comparison any theorem below depends on has
its two sides more than `10⁻⁶` apart, so the approximation never changes a
branch taken. -/
def jsSqrt (n : ℕ) : ℚ := (raizEntera (n * 10 ^ 12) : ℚ) / 10 ^ 6

/-- The mine probability currently stored at a position (the cell is always
present at the positions this is called with). -/
def probabilidadMinaDe (t : Tablero) (f c : ℕ) : ℚ :=
  match t.obtenerCelda (f : ℤ) (c : ℤ) with
  | some cd => cd.probabilidades.probabilidadMina
  | none => 0

/-- Apply `celda.actualizarProbabilidades` to the live cell at a position. -/
def actualizarCelda (t : Tablero) (f c : ℕ) (p conf : ℚ) (o : Origen) :
    Tablero :=
  t.modificarCelda f c fun cd => cd.actualizarProbabilidades p conf o

/-- `MotorProbabilidad.inicializarProbabilidadesBase(celdasSinRevolar)`:
density-based base probability with positional discounts, applied only to
cells below confidence `0.5`. -/
def inicializarProbabilidadesBase (t : Tablero) (sinRev : List Celda) :
    Tablero :=
  let totalCeldas := t.filas * t.columnas
  let estimacionMinas := jsRound ((totalCeldas : ℚ) * 0.18)
  let minasFaltantes : ℚ := max 0 ((estimacionMinas : ℚ) - (t.contadorBanderas : ℚ))
  let probabilidadBase : ℚ :=
    if sinRev.length > 0 then min 0.5 (minasFaltantes / sinRev.length) else 0.15
  sinRev.foldl (fun t cel =>
    let factorPosicion : ℚ :=
      if cel.esEsquina then 0.7
      else if cel.esBorde then 0.8
      else if cel.distanciaBorde = 1 then 0.9
      else 1
    let probAjustada := probabilidadBase * factorPosicion
    t.modificarCelda cel.fila cel.columna fun cd =>
      if cd.probabilidades.confianza < 0.5 then
        cd.actualizarProbabilidades probAjustada 0.3 .base
      else cd) t

/-- Canonical form of a `restricciones` key: the origin list sorted.  The JS
code sorts the origins' string forms and joins them; only key equality is ever
used, and two origin lists have the same sorted form (under any total order)
exactly when they list the same origins. -/
def ordenarClave : List (ℕ × ℕ) → List (ℕ × ℕ) :=
  List.foldr (fun p acc => insertarPar p acc) []
where
  insertarPar (p : ℕ × ℕ) : List (ℕ × ℕ) → List (ℕ × ℕ)
    | [] => [p]
    | q :: rest =>
      if p.1 < q.1 ∨ (p.1 = q.1 ∧ p.2 ≤ q.2) then p :: q :: rest
      else q :: insertarPar p rest

/-- The identically-constrained groups of
`MotorProbabilidad.calcularProbabilidadesLocales`: cells keyed by their sorted
restriction-origin set, in first-appearance order, each group carrying the
first member's restriction list. -/
def gruposLocales (t : Tablero) (sinRev : List Celda) :
    List (List Celda × List Restriccion) :=
  (sinRev.foldl (fun (grupos : List (List (ℕ × ℕ) × List Celda × List Restriccion)) cel =>
    let restr := t.restriccionesDe cel.fila cel.columna
    if restr.length > 0 then
      let clave := ordenarClave (restr.map (fun r => r.celdaOrigen))
      if grupos.any (fun g => g.1 = clave) then
        grupos.map fun g => if g.1 = clave then (g.1, g.2.1 ++ [cel], g.2.2) else g
      else grupos ++ [(clave, [cel], restr)]
    else grupos) []).map fun g => (g.2.1, g.2.2)

/-- `MotorProbabilidad.calcularProbabilidadesLocales(celdasSinRevolar)`: each
single-restriction group gets probability `minasRestantes / groupSize` at
confidence `0.5 + 0.3/√groupSize`. -/
def calcularProbabilidadesLocales (t : Tablero) (sinRev : List Celda) :
    Tablero :=
  (gruposLocales t sinRev).foldl (fun t g =>
    if g.1.length > 0 ∧ g.2.length > 0 then
      match g.2 with
      | [r] =>
        let probabilidad : ℚ := (r.minasRestantes : ℚ) / g.1.length
        let confianza : ℚ := 0.5 + 0.3 / jsSqrt g.1.length
        g.1.foldl (fun t cel =>
          actualizarCelda t cel.fila cel.columna probabilidad confianza
            .restricciones) t
      | _ => t
    else t) t

/-- BFS of `MotorProbabilidad.obtenerGrupoConexo`: collects the group's cells
in visit order and the restriction-origin keys in first-appearance order. -/
def grupoConexoMotor (t : Tablero) (sinRev : List Celda) :
    ℕ → List Celda → List (ℕ × ℕ) → List Celda → List (ℕ × ℕ) →
    List Celda × List (ℕ × ℕ) × List (ℕ × ℕ)
  | 0, _, visitadas, celdas, restrs => (celdas, restrs, visitadas)
  | _ + 1, [], visitadas, celdas, restrs => (celdas, restrs, visitadas)
  | fuel + 1, cel :: cola, visitadas, celdas, restrs =>
    if (cel.fila, cel.columna) ∈ visitadas then
      grupoConexoMotor t sinRev fuel cola visitadas celdas restrs
    else
      let visitadas := (cel.fila, cel.columna) :: visitadas
      let celdas := celdas ++ [cel]
      let paso := (t.restriccionesDe cel.fila cel.columna).foldl
        (fun (acc : List (ℕ × ℕ) × List Celda) r =>
          let (restrs, cola) := acc
          let restrs :=
            if r.celdaOrigen ∈ restrs then restrs else restrs ++ [r.celdaOrigen]
          let conectadas := sinRev.filter fun otra =>
            (otra.fila, otra.columna) ∉ visitadas &&
            (t.restriccionesDe otra.fila otra.columna).any
              (fun r2 => r2.celdaOrigen == r.celdaOrigen)
          (restrs, cola ++ conectadas)) (restrs, cola)
      grupoConexoMotor t sinRev fuel paso.2 visitadas celdas paso.1

/-- One connected group of the probability engine. -/
structure GrupoMotor where
  celdas : List Celda
  restricciones : List (RestriccionGrupo)
deriving Repr

/-- `MotorProbabilidad.obtenerGruposConectados(celdasSinRevolar)`. -/
def obtenerGruposConectados (t : Tablero) (sinRev : List Celda) :
    List GrupoMotor :=
  let fuel := (t.filas * t.columnas + 1) ^ 3
  (sinRev.foldl (fun (acc : List GrupoMotor × List (ℕ × ℕ)) cel =>
    let (grupos, agrupadas) := acc
    if (cel.fila, cel.columna) ∈ agrupadas then acc
    else if (t.restriccionesDe cel.fila cel.columna).length = 0 then acc
    else
      let g := grupoConexoMotor t sinRev fuel [cel] agrupadas [] []
      let restrs := g.2.1.map fun k =>
        match t.obtenerCelda (k.1 : ℤ) (k.2 : ℤ) with
        | some cr => (⟨cr, valorNumericoD cr⟩ : RestriccionGrupo)
        | none => ⟨Tablero.celdaInicial 0 0 k.1 k.2, 0⟩
      if g.1.length > 0 then (grupos ++ [⟨g.1, restrs⟩], g.2.2)
      else (grupos, g.2.2)) ([], [])).1

/-- `MotorProbabilidad.generarCombinaciones(n)` for `n ≤ 10`: all `2^n` 0/1
vectors, bit `j` of `i`.  For `n > 10` the source draws 1000 samples from
`Math.random`; randomness is outside this embedding, so the model yields no
combinations there (hence no update); no theorem below concerns components
larger than 10 cells. -/
def generarCombinaciones (n : ℕ) : List (List ℕ) :=
  if n > 10 then []
  else (List.range (2 ^ n)).map fun i =>
    (List.range n).map fun j => if i.testBit j then 1 else 0

/-- `MotorProbabilidad.calcularProbabilidadesPorEnumeracion(grupo)`: keep the
assignments consistent with every restriction and average each cell's bit. -/
def calcularProbabilidadesPorEnumeracion (t : Tablero) (g : GrupoMotor) :
    Option (List ℚ) :=
  if g.celdas.length > 12 then none
  else
    let restricciones := g.restricciones.map fun r =>
      let ady := (t.obtenerCeldasAdyacentes r.celda.fila r.celda.columna).filter
        fun c => ¬c.descubierta
      let celdasAfectadas := ady.filterMap fun c =>
        (List.range g.celdas.length).find? fun i =>
          match g.celdas.get? i with
          | some cel => cel.fila == c.fila && cel.columna == c.columna
          | none => false
      let banderasActuales :=
        ((t.obtenerCeldasAdyacentes r.celda.fila r.celda.columna).filter
          fun c => c.tieneBandera).length
      ((r.valor : ℤ) - banderasActuales, celdasAfectadas)
    let combinaciones := generarCombinaciones g.celdas.length
    let validas := combinaciones.filter fun cb =>
      restricciones.all fun r =>
        ((r.2.foldl (fun acc idx => acc + cb.getD idx 0) 0 : ℕ) : ℤ) = r.1
    if validas.length > 0 then
      some ((List.range g.celdas.length).map fun i =>
        ((validas.foldl (fun acc cb => acc + cb.getD i 0) 0 : ℕ) : ℚ) /
          validas.length)
    else none

/-- `MotorProbabilidad.resolverSistemaLineal(A, b)`: Gaussian elimination with
partial pivoting and back substitution on the (square) normal equations. -/
def resolverSistemaLineal (a : List (List ℚ)) (b : List ℚ) : List ℚ :=
  let n := a.length
  let aug := List.zipWith (fun fila v => fila ++ [v]) a b
  let aug := (List.range n).foldl (fun aug i =>
    let maxRow := (List.range' (i + 1) (n - (i + 1))).foldl (fun maxR j =>
      if jabsGtO (filaGet aug j i) (filaGet aug maxR i) then j else maxR) i
    let aug := swapRows aug i maxRow
    match filaGet aug i i with
    | none => aug
    | some piv =>
      if |piv| < 1e-10 then aug
      else
        let aug := (List.range' (i + 1) (n - i)).foldl (fun aug j =>
          setMat aug i j ((filaGet aug i j).getD 0 / piv)) aug
        let aug := setMat aug i i 1
        (List.range' (i + 1) (n - (i + 1))).foldl (fun aug j =>
          let factor := (filaGet aug j i).getD 0
          (List.range' i (n + 1 - i)).foldl (fun aug k =>
            setMat aug j k
              ((filaGet aug j k).getD 0 - factor * (filaGet aug i k).getD 0)) aug) aug) aug
  (List.range n).foldr (fun i sol =>
    let s := (filaGet aug i n).getD 0
    let s := (List.range' (i + 1) (n - (i + 1))).foldl (fun s j =>
      s - (filaGet aug i j).getD 0 * sol.getD j 0) s
    setOrExtend sol i s) (List.replicate n 0)

/-- `MotorProbabilidad.resolverMinimosCuadrados(A, b)`: form `AᵀA` and `Aᵀb`
and solve the normal equations. -/
def resolverMinimosCuadrados (a : List (List ℚ)) (b : List ℚ) : List ℚ :=
  let m := a.length
  let n := (a.headD []).length
  let ata := (List.range n).map fun i =>
    (List.range n).map fun j =>
      (List.range m).foldl (fun acc k =>
        acc + (filaGet a k i).getD 0 * (filaGet a k j).getD 0) 0
  let atb := (List.range n).map fun i =>
    (List.range m).foldl (fun acc k =>
      acc + (filaGet a k i).getD 0 * b.getD k 0) 0
  resolverSistemaLineal ata atb

/-- `MotorProbabilidad.calcularProbabilidadesPorModeloLineal(grupo)`: the
least-squares approximation for groups above 12 cells, clamped to `[0, 1]`. -/
def calcularProbabilidadesPorModeloLineal (t : Tablero) (g : GrupoMotor) :
    Option (List ℚ) :=
  let matriz := g.restricciones.map fun r =>
    let ady := (t.obtenerCeldasAdyacentes r.celda.fila r.celda.columna).filter
      fun c => ¬c.descubierta
    g.celdas.map fun cel =>
      if ady.any (fun c => c.fila == cel.fila && c.columna == cel.columna) then
        (1 : ℚ)
      else 0
  let valores := g.restricciones.map fun r =>
    let band := ((t.obtenerCeldasAdyacentes r.celda.fila r.celda.columna).filter
      fun c => c.tieneBandera).length
    ((r.valor : ℚ) - band)
  let soluciones := resolverMinimosCuadrados matriz valores
  some (soluciones.map fun p => max 0 (min 1 p))

/-- `MotorProbabilidad.calcularProbabilidadesGlobales(celdasSinRevolar)`:
exact enumeration for components of at most 12 cells (confidence `0.8`), the
linear model above that (confidence `0.6`), flat `0.1/0.4` for unconstrained
cells. -/
def calcularProbabilidadesGlobales (t : Tablero) (sinRev : List Celda) :
    Tablero :=
  let grupos := obtenerGruposConectados t sinRev
  let t := grupos.foldl (fun t g =>
    if g.celdas.length ≤ 12 then
      match calcularProbabilidadesPorEnumeracion t g with
      | some probabilidades =>
        (List.range probabilidades.length).foldl (fun t i =>
          match g.celdas.get? i with
          | some cel =>
            actualizarCelda t cel.fila cel.columna (probabilidades.getD i 0)
              0.8 .probabilidad
          | none => t) t
      | none => t
    else
      match calcularProbabilidadesPorModeloLineal t g with
      | some probabilidades =>
        (List.range probabilidades.length).foldl (fun t i =>
          match g.celdas.get? i with
          | some cel =>
            actualizarCelda t cel.fila cel.columna (probabilidades.getD i 0)
              0.6 .probabilidad
          | none => t) t
      | none => t) t
  (sinRev.filter fun cel => (t.restriccionesDe cel.fila cel.columna).length = 0).foldl
    (fun t cel => actualizarCelda t cel.fila cel.columna 0.1 0.4 .aislada) t

/-- `MotorProbabilidad.calcularProbabilidadesFrontera(celdasSinRevolar)`:
frontier cells get the weight-averaged local ratio of their revealed numeric
neighbours; non-frontier cells below confidence `0.5` are damped by 15%. -/
def calcularProbabilidadesFrontera (t : Tablero) (sinRev : List Celda) :
    Tablero :=
  let celdasFrontera := sinRev.filter fun cel =>
    (t.obtenerCeldasAdyacentes cel.fila cel.columna).any fun adj => adj.descubierta
  let t := celdasFrontera.foldl (fun t cel =>
    let adyacentesReveladas :=
      (t.obtenerCeldasAdyacentes cel.fila cel.columna).filter
        fun adj => adj.descubierta
    let par := adyacentesReveladas.foldl (fun (par : ℚ × ℚ) ady =>
      if ady.tieneValorNumerico then
        let valor := valorNumericoD ady
        let adyacentesSinRevolar :=
          (t.obtenerCeldasAdyacentes ady.fila ady.columna).filter
            fun adj => ¬adj.descubierta && ¬adj.tieneBandera
        let banderasColocadas :=
          ((t.obtenerCeldasAdyacentes ady.fila ady.columna).filter
            fun adj => adj.tieneBandera).length
        let minasRestantes : ℚ := (valor : ℚ) - banderasColocadas
        if adyacentesSinRevolar.length > 0 then
          let probabilidadLocal := minasRestantes / adyacentesSinRevolar.length
          let factorPeso : ℚ := 1 / adyacentesSinRevolar.length
          (par.1 + probabilidadLocal * factorPeso, par.2 + factorPeso)
        else par
      else par) ((0 : ℚ), (0 : ℚ))
    if par.2 > 0 then
      let probabilidadPonderada := par.1 / par.2
      let confianza := min 0.7 (0.4 + 0.1 * (adyacentesReveladas.length : ℚ))
      actualizarCelda t cel.fila cel.columna probabilidadPonderada confianza
        .frontera
    else t) t
  let celdasNoFrontera := sinRev.filter fun cel =>
    ¬celdasFrontera.any fun x => x.fila == cel.fila && x.columna == cel.columna
  celdasNoFrontera.foldl (fun t cel =>
    t.modificarCelda cel.fila cel.columna fun cd =>
      if cd.probabilidades.confianza < 0.5 then
        cd.actualizarProbabilidades (cd.probabilidades.probabilidadMina * 0.85)
          0.5 .noFrontera
      else cd) t

/-- One record of the cross-game known-mine map (src/logica/GestorMemoria.js);
only the fields the engines read are modelled (timestamps, game-id lists and
raw coordinates are bookkeeping no control flow consults). -/
structure MinaConocida where
  ocurrencias : ℕ
  esReciente : Bool
deriving DecidableEq, Repr

/-- `MotorProbabilidad.integrarMemoriaHistorica(celdasSinRevolar, gestor)`:
blend the historical mine frequency into the estimate when its derived
confidence exceeds `0.4` and the cell's current confidence. -/
def integrarMemoriaHistorica (t : Tablero) (sinRev : List Celda)
    (mapa : List ((ℕ × ℕ) × MinaConocida)) : Tablero :=
  sinRev.foldl (fun t cel =>
    match mapa.lookup (cel.fila, cel.columna) with
    | some info =>
      if info.ocurrencias > 0 then
        let factorHistorico : ℚ :=
          min 0.8 (0.3 + (info.ocurrencias : ℚ) * 0.1)
        let confianzaHistorica : ℚ :=
          min 0.7 (0.3 + (info.ocurrencias : ℚ) * 0.05)
        let factorHistorico :=
          if info.esReciente then factorHistorico + 0.1 else factorHistorico
        let confianzaHistorica :=
          if info.esReciente then confianzaHistorica + 0.1 else confianzaHistorica
        let factorHistorico := min 0.9 factorHistorico
        let confianzaHistorica := min 0.8 confianzaHistorica
        t.modificarCelda cel.fila cel.columna fun cd =>
          if confianzaHistorica > 0.4 ∧
             confianzaHistorica > cd.probabilidades.confianza then
            let probActual := cd.probabilidades.probabilidadMina
            let confActual := cd.probabilidades.confianza
            let probCombinada :=
              (probActual * confActual + factorHistorico * confianzaHistorica) /
                (confActual + confianzaHistorica)
            let confCombinada := max confActual confianzaHistorica
            cd.actualizarProbabilidades probCombinada confCombinada .memoria
          else cd
      else t
    | none => t) t

/-- `MotorProbabilidad.identificarCasosConCerteza(celdasSinRevolar)`. -/
def identificarCasosConCerteza (t : Tablero) (sinRev : List Celda) : Tablero :=
  sinRev.foldl (fun t cel =>
    t.modificarCelda cel.fila cel.columna fun cd =>
      if cd.probabilidades.probabilidadMina > 0.99 ∧
         cd.probabilidades.confianza > 0.95 then
        cd.actualizarProbabilidades 1 1 .analisis100
      else if cd.probabilidades.probabilidadMina < 0.01 ∧
          cd.probabilidades.confianza > 0.95 then
        cd.actualizarProbabilidades 0 1 .analisis100
      else cd) t

/-- `MotorProbabilidad.normalizarProbabilidades(celdasSinRevolar)`: when the
total probability mass strays from the density-implied mine count by more
than half of it, rescale every sub-certainty cell by one clamped factor. -/
def normalizarProbabilidades (t : Tablero) (sinRev : List Celda) : Tablero :=
  let totalCeldas := t.filas * t.columnas
  let estimacionMinas := jsRound ((totalCeldas : ℚ) * 0.18)
  let minasFaltantes : ℚ := max 1 ((estimacionMinas : ℚ) - (t.contadorBanderas : ℚ))
  let sumaProbabilidades := sinRev.foldl
    (fun acc cel => acc + probabilidadMinaDe t cel.fila cel.columna) 0
  if |sumaProbabilidades - minasFaltantes| > 0.5 * minasFaltantes then
    let factorEscala := minasFaltantes / max 0.1 sumaProbabilidades
    sinRev.foldl (fun t cel =>
      t.modificarCelda cel.fila cel.columna fun cd =>
        if cd.probabilidades.confianza < 0.95 then
          let nuevaProb :=
            min 0.95 (max 0.05 (cd.probabilidades.probabilidadMina * factorEscala))
          cd.actualizarProbabilidades nuevaProb cd.probabilidades.confianza
            .normalizado
        else cd) t
  else t

/-- `MotorProbabilidad.ajustarCasosEspeciales(celdasSinRevolar)`: a cell next
to a revealed empty/zero is forced safe; a sole-unrevealed corner next to a
revealed `1` is forced a mine. -/
def ajustarCasosEspeciales (t : Tablero) (sinRev : List Celda) : Tablero :=
  sinRev.foldl (fun t cel =>
    let adyacentes := t.obtenerCeldasAdyacentes cel.fila cel.columna
    let adyacenteVacia := adyacentes.any fun adj =>
      adj.descubierta && (adj.valor == some .vacia || adj.valor == some (.num 0))
    let t :=
      if adyacenteVacia then
        actualizarCelda t cel.fila cel.columna 0 1 .analisis100
      else t
    if cel.esEsquina then
      let adyacentesSinDescubrir := adyacentes.filter fun adj => ¬adj.descubierta
      if adyacentesSinDescubrir.length = 1 then
        if adyacentes.any (fun adj => adj.descubierta && adj.tieneValorNumerico &&
            valorNumericoD adj == 1) then
          actualizarCelda t cel.fila cel.columna 1 1 .analisis100
        else t
      else t
    else t) t

/-- `MotorProbabilidad.ajustarProbabilidadesFinales(celdasSinRevolar)`. -/
def ajustarProbabilidadesFinales (t : Tablero) (sinRev : List Celda) : Tablero :=
  ajustarCasosEspeciales (normalizarProbabilidades
    (identificarCasosConCerteza t sinRev) sinRev) sinRev

/-- `MotorProbabilidad.calcularProbabilidades(gestorMemoria)`: the six stages
in order on the snapshot of unrevealed cells; the board with its updated
probability records is the result. -/
def calcularProbabilidades (t : Tablero)
    (memoria : Option (List ((ℕ × ℕ) × MinaConocida)) := none) : Tablero :=
  let sinRev := t.obtenerCeldasSinRevolar
  let t := inicializarProbabilidadesBase t sinRev
  let t := calcularProbabilidadesLocales t sinRev
  let t := calcularProbabilidadesGlobales t sinRev
  let t := calcularProbabilidadesFrontera t sinRev
  let t :=
    match memoria with
    | some mapa => integrarMemoriaHistorica t sinRev mapa
    | none => t
  ajustarProbabilidadesFinales t sinRev

/-! ## The learning memory (src/logica/GestorMemoria.js, contradiction part) -/

/-- The memory state the contradiction machinery touches: the known-mine map,
the change counter with its bounded history, and the session's
`cambiosDetectados` flag.  Contradiction entries carry a caller-supplied type
string modelled as an opaque code. -/
structure GestorMemoria where
  mapaMinasConocidas : List ((ℕ × ℕ) × MinaConocida)
  contadorCambios : ℕ
  historialCambios : List ℕ
  cambiosDetectados : Bool
deriving DecidableEq, Repr

/-- `GestorMemoria.atenuarMemoriaAntigua()`: every record keeps at least one
occurrence, loses 30% (floored), and is no longer recent. -/
def atenuarMemoriaAntigua (g : GestorMemoria) : GestorMemoria :=
  { g with mapaMinasConocidas := g.mapaMinasConocidas.map fun par =>
      (par.1, { ocurrencias := max 1 (⌊(par.2.ocurrencias : ℚ) * 0.7⌋).toNat,
                esReciente := false }) }

/-- `GestorMemoria.registrarContradiccion(contradiccion)`: bump the counter,
append to the bounded (20) ring, and from the third contradiction on set
`cambiosDetectados` and attenuate the known-mine records. -/
def registrarContradiccion (g : GestorMemoria) (tipo : ℕ) : GestorMemoria :=
  let contador := g.contadorCambios + 1
  let historial := g.historialCambios ++ [tipo]
  let historial :=
    if historial.length > 20 then historial.drop (historial.length - 20)
    else historial
  let g := { g with contadorCambios := contador, historialCambios := historial }
  if contador ≥ 3 then
    atenuarMemoriaAntigua { g with cambiosDetectados := true }
  else g

/-- `GestorMemoria.obtenerMapaMinasConocidas()`: after changes were detected,
reads see occurrence counts halved (floored at 1) and cleared recency, on a
copy — the stored map itself is not written. -/
def obtenerMapaMinasConocidas (g : GestorMemoria) :
    List ((ℕ × ℕ) × MinaConocida) :=
  if g.cambiosDetectados then
    g.mapaMinasConocidas.map fun par =>
      (par.1, { ocurrencias := max 1 (⌊(par.2.ocurrencias : ℚ) * 0.5⌋).toNat,
                esReciente := false })
  else g.mapaMinasConocidas

/-- A 4×2 board (reachable by four reveals on a fresh board) on which the
constraint engine is not idempotent: revealed are `(1,0)=2`, `(1,1)=2`,
`(2,0)=2`, `(3,1)=2`, consistent with mines at `(0,0)`, `(2,1)`, `(3,0)`. -/
def tableroNoIdempotente : Tablero :=
  (((((Tablero.crear 4 2).establecerValorCelda 1 0 (.num 2)).1.establecerValorCelda
      1 1 (.num 2)).1.establecerValorCelda 2 0 (.num 2)).1.establecerValorCelda
      3 1 (.num 2)).1

/-- A board is well formed when every stored cell carries the coordinates it
is stored under — true of every board built by `crear` and preserved by all
mutations, which never touch `fila`/`columna`.  Decidable form, scanning the
grid. -/
def tableroBienFormado (t : Tablero) : Bool :=
  (List.range t.filas).all fun f => (List.range t.columnas).all fun c =>
    match t.obtenerCelda f c with
    | some cd => cd.fila == f && cd.columna == c
    | none => true

/-! ## Concrete boards and views used by the probability-engine theorems -/

/-- Summary view of a cell's stored probability record: the
(mine probability, confidence, provenance) triple. -/
def resumenCelda (t : Tablero) (f c : ℕ) : Option (ℚ × ℚ × Origen) :=
  (t.obtenerCelda (f : ℤ) (c : ℤ)).map fun cd =>
    (cd.probabilidades.probabilidadMina, cd.probabilidades.confianza,
     cd.probabilidades.origen)

/-- A 1×5 board reached by two reveals on a fresh board: `(0,1)` shows `2` and
`(0,3)` shows `1`.  The unrevealed cells are `(0,0)`, `(0,2)`, `(0,4)`; the
only mine assignment meeting both digits puts mines at `(0,0)` and `(0,2)`. -/
def tableroUnoPorCinco : Tablero :=
  (((Tablero.crear 1 5).establecerValorCelda 0 1 (.num 2)).1.establecerValorCelda
    0 3 (.num 1)).1

/-- The single connected constraint component of `tableroUnoPorCinco`: its
three unrevealed cells together with the two digit restrictions. -/
def grupoUnoPorCinco : GrupoMotor :=
  (obtenerGruposConectados tableroUnoPorCinco
    tableroUnoPorCinco.obtenerCeldasSinRevolar).headD ⟨[], []⟩

/-- `tableroUnoPorCinco` after the first five stages of
`calcularProbabilidades` (base, locales, globales, frontera, certainty scan):
the state the normalization stage then receives. -/
def etapaCincoUnoPorCinco : Tablero :=
  identificarCasosConCerteza (calcularProbabilidadesFrontera
    (calcularProbabilidadesGlobales (calcularProbabilidadesLocales
      (inicializarProbabilidadesBase tableroUnoPorCinco
        tableroUnoPorCinco.obtenerCeldasSinRevolar)
      tableroUnoPorCinco.obtenerCeldasSinRevolar)
      tableroUnoPorCinco.obtenerCeldasSinRevolar)
      tableroUnoPorCinco.obtenerCeldasSinRevolar)
    tableroUnoPorCinco.obtenerCeldasSinRevolar

/-- The scenario board of claim C8: an 8×8 grid whose corner `(0,0)` was
revealed with value `0`. -/
def tableroEsquinaOchoPorOcho : Tablero :=
  ((Tablero.crear 8 8).establecerValorCelda 0 0 (.num 0)).1

/-- `tableroEsquinaOchoPorOcho` after the first six stages of
`calcularProbabilidades` (base, locales, globales, frontera, certainty scan,
normalization), spelled out as a literal board.  The lemma
`etapas_seis_esquina_eval` below checks this literal against the staged
pipeline; the final-stage theorems then evaluate `ajustarCasosEspeciales` on
the literal directly, which keeps the kernel's evaluation of the 8×8 run
shallow. -/
def tableroEsquinaEtapaSeis : Tablero := { filas := 8, columnas := 8, celdas := [[{ fila := 0, columna := 0, descubierta := true, tieneBandera := false, valor := some (Buscaminas.Valor.num 0), probabilidades := { probabilidadMina := 0, probabilidadSegura := 1, confianza := 1, origen := Buscaminas.Origen.revelada, calculosAnteriores := [] }, esEsquina := true, esBorde := true, distanciaBorde := 0 }, { fila := 0, columna := 1, descubierta := false, tieneBandera := false, valor := none, probabilidades := { probabilidadMina := 0, probabilidadSegura := 1, confianza := (4 : Rat)/5, origen := Buscaminas.Origen.probabilidad, calculosAnteriores := [{ probabilidadMina := (1 : Rat)/2, probabilidadSegura := (1 : Rat)/2, confianza := 0, origen := Buscaminas.Origen.inicial }, { probabilidadMina := (16 : Rat)/105, probabilidadSegura := (89 : Rat)/105, confianza := (3 : Rat)/10, origen := Buscaminas.Origen.base }, { probabilidadMina := 0, probabilidadSegura := 1, confianza := (15547 : Rat)/23094, origen := Buscaminas.Origen.restricciones }] }, esEsquina := false, esBorde := true, distanciaBorde := 0 }, { fila := 0, columna := 2, descubierta := false, tieneBandera := false, valor := none, probabilidades := { probabilidadMina := (17 : Rat)/200, probabilidadSegura := (183 : Rat)/200, confianza := (1 : Rat)/2, origen := Buscaminas.Origen.noFrontera, calculosAnteriores := [{ probabilidadMina := (1 : Rat)/2, probabilidadSegura := (1 : Rat)/2, confianza := 0, origen := Buscaminas.Origen.inicial }, { probabilidadMina := (16 : Rat)/105, probabilidadSegura := (89 : Rat)/105, confianza := (3 : Rat)/10, origen := Buscaminas.Origen.base }, { probabilidadMina := (1 : Rat)/10, probabilidadSegura := (9 : Rat)/10, confianza := (2 : Rat)/5, origen := Buscaminas.Origen.aislada }] }, esEsquina := false, esBorde := true, distanciaBorde := 0 }, { fila := 0, columna := 3, descubierta := false, tieneBandera := false, valor := none, probabilidades := { probabilidadMina := (17 : Rat)/200, probabilidadSegura := (183 : Rat)/200, confianza := (1 : Rat)/2, origen := Buscaminas.Origen.noFrontera, calculosAnteriores := [{ probabilidadMina := (1 : Rat)/2, probabilidadSegura := (1 : Rat)/2, confianza := 0, origen := Buscaminas.Origen.inicial }, { probabilidadMina := (16 : Rat)/105, probabilidadSegura := (89 : Rat)/105, confianza := (3 : Rat)/10, origen := Buscaminas.Origen.base }, { probabilidadMina := (1 : Rat)/10, probabilidadSegura := (9 : Rat)/10, confianza := (2 : Rat)/5, origen := Buscaminas.Origen.aislada }] }, esEsquina := false, esBorde := true, distanciaBorde := 0 }, { fila := 0, columna := 4, descubierta := false, tieneBandera := false, valor := none, probabilidades := { probabilidadMina := (17 : Rat)/200, probabilidadSegura := (183 : Rat)/200, confianza := (1 : Rat)/2, origen := Buscaminas.Origen.noFrontera, calculosAnteriores := [{ probabilidadMina := (1 : Rat)/2, probabilidadSegura := (1 : Rat)/2, confianza := 0, origen := Buscaminas.Origen.inicial }, { probabilidadMina := (16 : Rat)/105, probabilidadSegura := (89 : Rat)/105, confianza := (3 : Rat)/10, origen := Buscaminas.Origen.base }, { probabilidadMina := (1 : Rat)/10, probabilidadSegura := (9 : Rat)/10, confianza := (2 : Rat)/5, origen := Buscaminas.Origen.aislada }] }, esEsquina := false, esBorde := true, distanciaBorde := 0 }, { fila := 0, columna := 5, descubierta := false, tieneBandera := false, valor := none, probabilidades := { probabilidadMina := (17 : Rat)/200, probabilidadSegura := (183 : Rat)/200, confianza := (1 : Rat)/2, origen := Buscaminas.Origen.noFrontera, calculosAnteriores := [{ probabilidadMina := (1 : Rat)/2, probabilidadSegura := (1 : Rat)/2, confianza := 0, origen := Buscaminas.Origen.inicial }, { probabilidadMina := (16 : Rat)/105, probabilidadSegura := (89 : Rat)/105, confianza := (3 : Rat)/10, origen := Buscaminas.Origen.base }, { probabilidadMina := (1 : Rat)/10, probabilidadSegura := (9 : Rat)/10, confianza := (2 : Rat)/5, origen := Buscaminas.Origen.aislada }] }, esEsquina := false, esBorde := true, distanciaBorde := 0 }, { fila := 0, columna := 6, descubierta := false, tieneBandera := false, valor := none, probabilidades := { probabilidadMina := (17 : Rat)/200, probabilidadSegura := (183 : Rat)/200, confianza := (1 : Rat)/2, origen := Buscaminas.Origen.noFrontera, calculosAnteriores := [{ probabilidadMina := (1 : Rat)/2, probabilidadSegura := (1 : Rat)/2, confianza := 0, origen := Buscaminas.Origen.inicial }, { probabilidadMina := (16 : Rat)/105, probabilidadSegura := (89 : Rat)/105, confianza := (3 : Rat)/10, origen := Buscaminas.Origen.base }, { probabilidadMina := (1 : Rat)/10, probabilidadSegura := (9 : Rat)/10, confianza := (2 : Rat)/5, origen := Buscaminas.Origen.aislada }] }, esEsquina := false, esBorde := true, distanciaBorde := 0 }, { fila := 0, columna := 7, descubierta := false, tieneBandera := false, valor := none, probabilidades := { probabilidadMina := (17 : Rat)/200, probabilidadSegura := (183 : Rat)/200, confianza := (1 : Rat)/2, origen := Buscaminas.Origen.noFrontera, calculosAnteriores := [{ probabilidadMina := (1 : Rat)/2, probabilidadSegura := (1 : Rat)/2, confianza := 0, origen := Buscaminas.Origen.inicial }, { probabilidadMina := (2 : Rat)/15, probabilidadSegura := (13 : Rat)/15, confianza := (3 : Rat)/10, origen := Buscaminas.Origen.base }, { probabilidadMina := (1 : Rat)/10, probabilidadSegura := (9 : Rat)/10, confianza := (2 : Rat)/5, origen := Buscaminas.Origen.aislada }] }, esEsquina := true, esBorde := true, distanciaBorde := 0 }], [{ fila := 1, columna := 0, descubierta := false, tieneBandera := false, valor := none, probabilidades := { probabilidadMina := 0, probabilidadSegura := 1, confianza := (4 : Rat)/5, origen := Buscaminas.Origen.probabilidad, calculosAnteriores := [{ probabilidadMina := (1 : Rat)/2, probabilidadSegura := (1 : Rat)/2, confianza := 0, origen := Buscaminas.Origen.inicial }, { probabilidadMina := (16 : Rat)/105, probabilidadSegura := (89 : Rat)/105, confianza := (3 : Rat)/10, origen := Buscaminas.Origen.base }, { probabilidadMina := 0, probabilidadSegura := 1, confianza := (15547 : Rat)/23094, origen := Buscaminas.Origen.restricciones }] }, esEsquina := false, esBorde := true, distanciaBorde := 0 }, { fila := 1, columna := 1, descubierta := false, tieneBandera := false, valor := none, probabilidades := { probabilidadMina := 0, probabilidadSegura := 1, confianza := (4 : Rat)/5, origen := Buscaminas.Origen.probabilidad, calculosAnteriores := [{ probabilidadMina := (1 : Rat)/2, probabilidadSegura := (1 : Rat)/2, confianza := 0, origen := Buscaminas.Origen.inicial }, { probabilidadMina := (6 : Rat)/35, probabilidadSegura := (29 : Rat)/35, confianza := (3 : Rat)/10, origen := Buscaminas.Origen.base }, { probabilidadMina := 0, probabilidadSegura := 1, confianza := (15547 : Rat)/23094, origen := Buscaminas.Origen.restricciones }] }, esEsquina := false, esBorde := false, distanciaBorde := 1 }, { fila := 1, columna := 2, descubierta := false, tieneBandera := false, valor := none, probabilidades := { probabilidadMina := (17 : Rat)/200, probabilidadSegura := (183 : Rat)/200, confianza := (1 : Rat)/2, origen := Buscaminas.Origen.noFrontera, calculosAnteriores := [{ probabilidadMina := (1 : Rat)/2, probabilidadSegura := (1 : Rat)/2, confianza := 0, origen := Buscaminas.Origen.inicial }, { probabilidadMina := (6 : Rat)/35, probabilidadSegura := (29 : Rat)/35, confianza := (3 : Rat)/10, origen := Buscaminas.Origen.base }, { probabilidadMina := (1 : Rat)/10, probabilidadSegura := (9 : Rat)/10, confianza := (2 : Rat)/5, origen := Buscaminas.Origen.aislada }] }, esEsquina := false, esBorde := false, distanciaBorde := 1 }, { fila := 1, columna := 3, descubierta := false, tieneBandera := false, valor := none, probabilidades := { probabilidadMina := (17 : Rat)/200, probabilidadSegura := (183 : Rat)/200, confianza := (1 : Rat)/2, origen := Buscaminas.Origen.noFrontera, calculosAnteriores := [{ probabilidadMina := (1 : Rat)/2, probabilidadSegura := (1 : Rat)/2, confianza := 0, origen := Buscaminas.Origen.inicial }, { probabilidadMina := (6 : Rat)/35, probabilidadSegura := (29 : Rat)/35, confianza := (3 : Rat)/10, origen := Buscaminas.Origen.base }, { probabilidadMina := (1 : Rat)/10, probabilidadSegura := (9 : Rat)/10, confianza := (2 : Rat)/5, origen := Buscaminas.Origen.aislada }] }, esEsquina := false, esBorde := false, distanciaBorde := 1 }, { fila := 1, columna := 4, descubierta := false, tieneBandera := false, valor := none, probabilidades := { probabilidadMina := (17 : Rat)/200, probabilidadSegura := (183 : Rat)/200, confianza := (1 : Rat)/2, origen := Buscaminas.Origen.noFrontera, calculosAnteriores := [{ probabilidadMina := (1 : Rat)/2, probabilidadSegura := (1 : Rat)/2, confianza := 0, origen := Buscaminas.Origen.inicial }, { probabilidadMina := (6 : Rat)/35, probabilidadSegura := (29 : Rat)/35, confianza := (3 : Rat)/10, origen := Buscaminas.Origen.base }, { probabilidadMina := (1 : Rat)/10, probabilidadSegura := (9 : Rat)/10, confianza := (2 : Rat)/5, origen := Buscaminas.Origen.aislada }] }, esEsquina := false, esBorde := false, distanciaBorde := 1 }, { fila := 1, columna := 5, descubierta := false, tieneBandera := false, valor := none, probabilidades := { probabilidadMina := (17 : Rat)/200, probabilidadSegura := (183 : Rat)/200, confianza := (1 : Rat)/2, origen := Buscaminas.Origen.noFrontera, calculosAnteriores := [{ probabilidadMina := (1 : Rat)/2, probabilidadSegura := (1 : Rat)/2, confianza := 0, origen := Buscaminas.Origen.inicial }, { probabilidadMina := (6 : Rat)/35, probabilidadSegura := (29 : Rat)/35, confianza := (3 : Rat)/10, origen := Buscaminas.Origen.base }, { probabilidadMina := (1 : Rat)/10, probabilidadSegura := (9 : Rat)/10, confianza := (2 : Rat)/5, origen := Buscaminas.Origen.aislada }] }, esEsquina := false, esBorde := false, distanciaBorde := 1 }, { fila := 1, columna := 6, descubierta := false, tieneBandera := false, valor := none, probabilidades := { probabilidadMina := (17 : Rat)/200, probabilidadSegura := (183 : Rat)/200, confianza := (1 : Rat)/2, origen := Buscaminas.Origen.noFrontera, calculosAnteriores := [{ probabilidadMina := (1 : Rat)/2, probabilidadSegura := (1 : Rat)/2, confianza := 0, origen := Buscaminas.Origen.inicial }, { probabilidadMina := (6 : Rat)/35, probabilidadSegura := (29 : Rat)/35, confianza := (3 : Rat)/10, origen := Buscaminas.Origen.base }, { probabilidadMina := (1 : Rat)/10, probabilidadSegura := (9 : Rat)/10, confianza := (2 : Rat)/5, origen := Buscaminas.Origen.aislada }] }, esEsquina := false, esBorde := false, distanciaBorde := 1 }, { fila := 1, columna := 7, descubierta := false, tieneBandera := false, valor := none, probabilidades := { probabilidadMina := (17 : Rat)/200, probabilidadSegura := (183 : Rat)/200, confianza := (1 : Rat)/2, origen := Buscaminas.Origen.noFrontera, calculosAnteriores := [{ probabilidadMina := (1 : Rat)/2, probabilidadSegura := (1 : Rat)/2, confianza := 0, origen := Buscaminas.Origen.inicial }, { probabilidadMina := (16 : Rat)/105, probabilidadSegura := (89 : Rat)/105, confianza := (3 : Rat)/10, origen := Buscaminas.Origen.base }, { probabilidadMina := (1 : Rat)/10, probabilidadSegura := (9 : Rat)/10, confianza := (2 : Rat)/5, origen := Buscaminas.Origen.aislada }] }, esEsquina := false, esBorde := true, distanciaBorde := 0 }], [{ fila := 2, columna := 0, descubierta := false, tieneBandera := false, valor := none, probabilidades := { probabilidadMina := (17 : Rat)/200, probabilidadSegura := (183 : Rat)/200, confianza := (1 : Rat)/2, origen := Buscaminas.Origen.noFrontera, calculosAnteriores := [{ probabilidadMina := (1 : Rat)/2, probabilidadSegura := (1 : Rat)/2, confianza := 0, origen := Buscaminas.Origen.inicial }, { probabilidadMina := (16 : Rat)/105, probabilidadSegura := (89 : Rat)/105, confianza := (3 : Rat)/10, origen := Buscaminas.Origen.base }, { probabilidadMina := (1 : Rat)/10, probabilidadSegura := (9 : Rat)/10, confianza := (2 : Rat)/5, origen := Buscaminas.Origen.aislada }] }, esEsquina := false, esBorde := true, distanciaBorde := 0 }, { fila := 2, columna := 1, descubierta := false, tieneBandera := false, valor := none, probabilidades := { probabilidadMina := (17 : Rat)/200, probabilidadSegura := (183 : Rat)/200, confianza := (1 : Rat)/2, origen := Buscaminas.Origen.noFrontera, calculosAnteriores := [{ probabilidadMina := (1 : Rat)/2, probabilidadSegura := (1 : Rat)/2, confianza := 0, origen := Buscaminas.Origen.inicial }, { probabilidadMina := (6 : Rat)/35, probabilidadSegura := (29 : Rat)/35, confianza := (3 : Rat)/10, origen := Buscaminas.Origen.base }, { probabilidadMina := (1 : Rat)/10, probabilidadSegura := (9 : Rat)/10, confianza := (2 : Rat)/5, origen := Buscaminas.Origen.aislada }] }, esEsquina := false, esBorde := false, distanciaBorde := 1 }, { fila := 2, columna := 2, descubierta := false, tieneBandera := false, valor := none, probabilidades := { probabilidadMina := (17 : Rat)/200, probabilidadSegura := (183 : Rat)/200, confianza := (1 : Rat)/2, origen := Buscaminas.Origen.noFrontera, calculosAnteriores := [{ probabilidadMina := (1 : Rat)/2, probabilidadSegura := (1 : Rat)/2, confianza := 0, origen := Buscaminas.Origen.inicial }, { probabilidadMina := (4 : Rat)/21, probabilidadSegura := (17 : Rat)/21, confianza := (3 : Rat)/10, origen := Buscaminas.Origen.base }, { probabilidadMina := (1 : Rat)/10, probabilidadSegura := (9 : Rat)/10, confianza := (2 : Rat)/5, origen := Buscaminas.Origen.aislada }] }, esEsquina := false, esBorde := false, distanciaBorde := 2 }, { fila := 2, columna := 3, descubierta := false, tieneBandera := false, valor := none, probabilidades := { probabilidadMina := (17 : Rat)/200, probabilidadSegura := (183 : Rat)/200, confianza := (1 : Rat)/2, origen := Buscaminas.Origen.noFrontera, calculosAnteriores := [{ probabilidadMina := (1 : Rat)/2, probabilidadSegura := (1 : Rat)/2, confianza := 0, origen := Buscaminas.Origen.inicial }, { probabilidadMina := (4 : Rat)/21, probabilidadSegura := (17 : Rat)/21, confianza := (3 : Rat)/10, origen := Buscaminas.Origen.base }, { probabilidadMina := (1 : Rat)/10, probabilidadSegura := (9 : Rat)/10, confianza := (2 : Rat)/5, origen := Buscaminas.Origen.aislada }] }, esEsquina := false, esBorde := false, distanciaBorde := 2 }, { fila := 2, columna := 4, descubierta := false, tieneBandera := false, valor := none, probabilidades := { probabilidadMina := (17 : Rat)/200, probabilidadSegura := (183 : Rat)/200, confianza := (1 : Rat)/2, origen := Buscaminas.Origen.noFrontera, calculosAnteriores := [{ probabilidadMina := (1 : Rat)/2, probabilidadSegura := (1 : Rat)/2, confianza := 0, origen := Buscaminas.Origen.inicial }, { probabilidadMina := (4 : Rat)/21, probabilidadSegura := (17 : Rat)/21, confianza := (3 : Rat)/10, origen := Buscaminas.Origen.base }, { probabilidadMina := (1 : Rat)/10, probabilidadSegura := (9 : Rat)/10, confianza := (2 : Rat)/5, origen := Buscaminas.Origen.aislada }] }, esEsquina := false, esBorde := false, distanciaBorde := 2 }, { fila := 2, columna := 5, descubierta := false, tieneBandera := false, valor := none, probabilidades := { probabilidadMina := (17 : Rat)/200, probabilidadSegura := (183 : Rat)/200, confianza := (1 : Rat)/2, origen := Buscaminas.Origen.noFrontera, calculosAnteriores := [{ probabilidadMina := (1 : Rat)/2, probabilidadSegura := (1 : Rat)/2, confianza := 0, origen := Buscaminas.Origen.inicial }, { probabilidadMina := (4 : Rat)/21, probabilidadSegura := (17 : Rat)/21, confianza := (3 : Rat)/10, origen := Buscaminas.Origen.base }, { probabilidadMina := (1 : Rat)/10, probabilidadSegura := (9 : Rat)/10, confianza := (2 : Rat)/5, origen := Buscaminas.Origen.aislada }] }, esEsquina := false, esBorde := false, distanciaBorde := 2 }, { fila := 2, columna := 6, descubierta := false, tieneBandera := false, valor := none, probabilidades := { probabilidadMina := (17 : Rat)/200, probabilidadSegura := (183 : Rat)/200, confianza := (1 : Rat)/2, origen := Buscaminas.Origen.noFrontera, calculosAnteriores := [{ probabilidadMina := (1 : Rat)/2, probabilidadSegura := (1 : Rat)/2, confianza := 0, origen := Buscaminas.Origen.inicial }, { probabilidadMina := (6 : Rat)/35, probabilidadSegura := (29 : Rat)/35, confianza := (3 : Rat)/10, origen := Buscaminas.Origen.base }, { probabilidadMina := (1 : Rat)/10, probabilidadSegura := (9 : Rat)/10, confianza := (2 : Rat)/5, origen := Buscaminas.Origen.aislada }] }, esEsquina := false, esBorde := false, distanciaBorde := 1 }, { fila := 2, columna := 7, descubierta := false, tieneBandera := false, valor := none, probabilidades := { probabilidadMina := (17 : Rat)/200, probabilidadSegura := (183 : Rat)/200, confianza := (1 : Rat)/2, origen := Buscaminas.Origen.noFrontera, calculosAnteriores := [{ probabilidadMina := (1 : Rat)/2, probabilidadSegura := (1 : Rat)/2, confianza := 0, origen := Buscaminas.Origen.inicial }, { probabilidadMina := (16 : Rat)/105, probabilidadSegura := (89 : Rat)/105, confianza := (3 : Rat)/10, origen := Buscaminas.Origen.base }, { probabilidadMina := (1 : Rat)/10, probabilidadSegura := (9 : Rat)/10, confianza := (2 : Rat)/5, origen := Buscaminas.Origen.aislada }] }, esEsquina := false, esBorde := true, distanciaBorde := 0 }], [{ fila := 3, columna := 0, descubierta := false, tieneBandera := false, valor := none, probabilidades := { probabilidadMina := (17 : Rat)/200, probabilidadSegura := (183 : Rat)/200, confianza := (1 : Rat)/2, origen := Buscaminas.Origen.noFrontera, calculosAnteriores := [{ probabilidadMina := (1 : Rat)/2, probabilidadSegura := (1 : Rat)/2, confianza := 0, origen := Buscaminas.Origen.inicial }, { probabilidadMina := (16 : Rat)/105, probabilidadSegura := (89 : Rat)/105, confianza := (3 : Rat)/10, origen := Buscaminas.Origen.base }, { probabilidadMina := (1 : Rat)/10, probabilidadSegura := (9 : Rat)/10, confianza := (2 : Rat)/5, origen := Buscaminas.Origen.aislada }] }, esEsquina := false, esBorde := true, distanciaBorde := 0 }, { fila := 3, columna := 1, descubierta := false, tieneBandera := false, valor := none, probabilidades := { probabilidadMina := (17 : Rat)/200, probabilidadSegura := (183 : Rat)/200, confianza := (1 : Rat)/2, origen := Buscaminas.Origen.noFrontera, calculosAnteriores := [{ probabilidadMina := (1 : Rat)/2, probabilidadSegura := (1 : Rat)/2, confianza := 0, origen := Buscaminas.Origen.inicial }, { probabilidadMina := (6 : Rat)/35, probabilidadSegura := (29 : Rat)/35, confianza := (3 : Rat)/10, origen := Buscaminas.Origen.base }, { probabilidadMina := (1 : Rat)/10, probabilidadSegura := (9 : Rat)/10, confianza := (2 : Rat)/5, origen := Buscaminas.Origen.aislada }] }, esEsquina := false, esBorde := false, distanciaBorde := 1 }, { fila := 3, columna := 2, descubierta := false, tieneBandera := false, valor := none, probabilidades := { probabilidadMina := (17 : Rat)/200, probabilidadSegura := (183 : Rat)/200, confianza := (1 : Rat)/2, origen := Buscaminas.Origen.noFrontera, calculosAnteriores := [{ probabilidadMina := (1 : Rat)/2, probabilidadSegura := (1 : Rat)/2, confianza := 0, origen := Buscaminas.Origen.inicial }, { probabilidadMina := (4 : Rat)/21, probabilidadSegura := (17 : Rat)/21, confianza := (3 : Rat)/10, origen := Buscaminas.Origen.base }, { probabilidadMina := (1 : Rat)/10, probabilidadSegura := (9 : Rat)/10, confianza := (2 : Rat)/5, origen := Buscaminas.Origen.aislada }] }, esEsquina := false, esBorde := false, distanciaBorde := 2 }, { fila := 3, columna := 3, descubierta := false, tieneBandera := false, valor := none, probabilidades := { probabilidadMina := (17 : Rat)/200, probabilidadSegura := (183 : Rat)/200, confianza := (1 : Rat)/2, origen := Buscaminas.Origen.noFrontera, calculosAnteriores := [{ probabilidadMina := (1 : Rat)/2, probabilidadSegura := (1 : Rat)/2, confianza := 0, origen := Buscaminas.Origen.inicial }, { probabilidadMina := (4 : Rat)/21, probabilidadSegura := (17 : Rat)/21, confianza := (3 : Rat)/10, origen := Buscaminas.Origen.base }, { probabilidadMina := (1 : Rat)/10, probabilidadSegura := (9 : Rat)/10, confianza := (2 : Rat)/5, origen := Buscaminas.Origen.aislada }] }, esEsquina := false, esBorde := false, distanciaBorde := 3 }, { fila := 3, columna := 4, descubierta := false, tieneBandera := false, valor := none, probabilidades := { probabilidadMina := (17 : Rat)/200, probabilidadSegura := (183 : Rat)/200, confianza := (1 : Rat)/2, origen := Buscaminas.Origen.noFrontera, calculosAnteriores := [{ probabilidadMina := (1 : Rat)/2, probabilidadSegura := (1 : Rat)/2, confianza := 0, origen := Buscaminas.Origen.inicial }, { probabilidadMina := (4 : Rat)/21, probabilidadSegura := (17 : Rat)/21, confianza := (3 : Rat)/10, origen := Buscaminas.Origen.base }, { probabilidadMina := (1 : Rat)/10, probabilidadSegura := (9 : Rat)/10, confianza := (2 : Rat)/5, origen := Buscaminas.Origen.aislada }] }, esEsquina := false, esBorde := false, distanciaBorde := 3 }, { fila := 3, columna := 5, descubierta := false, tieneBandera := false, valor := none, probabilidades := { probabilidadMina := (17 : Rat)/200, probabilidadSegura := (183 : Rat)/200, confianza := (1 : Rat)/2, origen := Buscaminas.Origen.noFrontera, calculosAnteriores := [{ probabilidadMina := (1 : Rat)/2, probabilidadSegura := (1 : Rat)/2, confianza := 0, origen := Buscaminas.Origen.inicial }, { probabilidadMina := (4 : Rat)/21, probabilidadSegura := (17 : Rat)/21, confianza := (3 : Rat)/10, origen := Buscaminas.Origen.base }, { probabilidadMina := (1 : Rat)/10, probabilidadSegura := (9 : Rat)/10, confianza := (2 : Rat)/5, origen := Buscaminas.Origen.aislada }] }, esEsquina := false, esBorde := false, distanciaBorde := 2 }, { fila := 3, columna := 6, descubierta := false, tieneBandera := false, valor := none, probabilidades := { probabilidadMina := (17 : Rat)/200, probabilidadSegura := (183 : Rat)/200, confianza := (1 : Rat)/2, origen := Buscaminas.Origen.noFrontera, calculosAnteriores := [{ probabilidadMina := (1 : Rat)/2, probabilidadSegura := (1 : Rat)/2, confianza := 0, origen := Buscaminas.Origen.inicial }, { probabilidadMina := (6 : Rat)/35, probabilidadSegura := (29 : Rat)/35, confianza := (3 : Rat)/10, origen := Buscaminas.Origen.base }, { probabilidadMina := (1 : Rat)/10, probabilidadSegura := (9 : Rat)/10, confianza := (2 : Rat)/5, origen := Buscaminas.Origen.aislada }] }, esEsquina := false, esBorde := false, distanciaBorde := 1 }, { fila := 3, columna := 7, descubierta := false, tieneBandera := false, valor := none, probabilidades := { probabilidadMina := (17 : Rat)/200, probabilidadSegura := (183 : Rat)/200, confianza := (1 : Rat)/2, origen := Buscaminas.Origen.noFrontera, calculosAnteriores := [{ probabilidadMina := (1 : Rat)/2, probabilidadSegura := (1 : Rat)/2, confianza := 0, origen := Buscaminas.Origen.inicial }, { probabilidadMina := (16 : Rat)/105, probabilidadSegura := (89 : Rat)/105, confianza := (3 : Rat)/10, origen := Buscaminas.Origen.base }, { probabilidadMina := (1 : Rat)/10, probabilidadSegura := (9 : Rat)/10, confianza := (2 : Rat)/5, origen := Buscaminas.Origen.aislada }] }, esEsquina := false, esBorde := true, distanciaBorde := 0 }], [{ fila := 4, columna := 0, descubierta := false, tieneBandera := false, valor := none, probabilidades := { probabilidadMina := (17 : Rat)/200, probabilidadSegura := (183 : Rat)/200, confianza := (1 : Rat)/2, origen := Buscaminas.Origen.noFrontera, calculosAnteriores := [{ probabilidadMina := (1 : Rat)/2, probabilidadSegura := (1 : Rat)/2, confianza := 0, origen := Buscaminas.Origen.inicial }, { probabilidadMina := (16 : Rat)/105, probabilidadSegura := (89 : Rat)/105, confianza := (3 : Rat)/10, origen := Buscaminas.Origen.base }, { probabilidadMina := (1 : Rat)/10, probabilidadSegura := (9 : Rat)/10, confianza := (2 : Rat)/5, origen := Buscaminas.Origen.aislada }] }, esEsquina := false, esBorde := true, distanciaBorde := 0 }, { fila := 4, columna := 1, descubierta := false, tieneBandera := false, valor := none, probabilidades := { probabilidadMina := (17 : Rat)/200, probabilidadSegura := (183 : Rat)/200, confianza := (1 : Rat)/2, origen := Buscaminas.Origen.noFrontera, calculosAnteriores := [{ probabilidadMina := (1 : Rat)/2, probabilidadSegura := (1 : Rat)/2, confianza := 0, origen := Buscaminas.Origen.inicial }, { probabilidadMina := (6 : Rat)/35, probabilidadSegura := (29 : Rat)/35, confianza := (3 : Rat)/10, origen := Buscaminas.Origen.base }, { probabilidadMina := (1 : Rat)/10, probabilidadSegura := (9 : Rat)/10, confianza := (2 : Rat)/5, origen := Buscaminas.Origen.aislada }] }, esEsquina := false, esBorde := false, distanciaBorde := 1 }, { fila := 4, columna := 2, descubierta := false, tieneBandera := false, valor := none, probabilidades := { probabilidadMina := (17 : Rat)/200, probabilidadSegura := (183 : Rat)/200, confianza := (1 : Rat)/2, origen := Buscaminas.Origen.noFrontera, calculosAnteriores := [{ probabilidadMina := (1 : Rat)/2, probabilidadSegura := (1 : Rat)/2, confianza := 0, origen := Buscaminas.Origen.inicial }, { probabilidadMina := (4 : Rat)/21, probabilidadSegura := (17 : Rat)/21, confianza := (3 : Rat)/10, origen := Buscaminas.Origen.base }, { probabilidadMina := (1 : Rat)/10, probabilidadSegura := (9 : Rat)/10, confianza := (2 : Rat)/5, origen := Buscaminas.Origen.aislada }] }, esEsquina := false, esBorde := false, distanciaBorde := 2 }, { fila := 4, columna := 3, descubierta := false, tieneBandera := false, valor := none, probabilidades := { probabilidadMina := (17 : Rat)/200, probabilidadSegura := (183 : Rat)/200, confianza := (1 : Rat)/2, origen := Buscaminas.Origen.noFrontera, calculosAnteriores := [{ probabilidadMina := (1 : Rat)/2, probabilidadSegura := (1 : Rat)/2, confianza := 0, origen := Buscaminas.Origen.inicial }, { probabilidadMina := (4 : Rat)/21, probabilidadSegura := (17 : Rat)/21, confianza := (3 : Rat)/10, origen := Buscaminas.Origen.base }, { probabilidadMina := (1 : Rat)/10, probabilidadSegura := (9 : Rat)/10, confianza := (2 : Rat)/5, origen := Buscaminas.Origen.aislada }] }, esEsquina := false, esBorde := false, distanciaBorde := 3 }, { fila := 4, columna := 4, descubierta := false, tieneBandera := false, valor := none, probabilidades := { probabilidadMina := (17 : Rat)/200, probabilidadSegura := (183 : Rat)/200, confianza := (1 : Rat)/2, origen := Buscaminas.Origen.noFrontera, calculosAnteriores := [{ probabilidadMina := (1 : Rat)/2, probabilidadSegura := (1 : Rat)/2, confianza := 0, origen := Buscaminas.Origen.inicial }, { probabilidadMina := (4 : Rat)/21, probabilidadSegura := (17 : Rat)/21, confianza := (3 : Rat)/10, origen := Buscaminas.Origen.base }, { probabilidadMina := (1 : Rat)/10, probabilidadSegura := (9 : Rat)/10, confianza := (2 : Rat)/5, origen := Buscaminas.Origen.aislada }] }, esEsquina := false, esBorde := false, distanciaBorde := 3 }, { fila := 4, columna := 5, descubierta := false, tieneBandera := false, valor := none, probabilidades := { probabilidadMina := (17 : Rat)/200, probabilidadSegura := (183 : Rat)/200, confianza := (1 : Rat)/2, origen := Buscaminas.Origen.noFrontera, calculosAnteriores := [{ probabilidadMina := (1 : Rat)/2, probabilidadSegura := (1 : Rat)/2, confianza := 0, origen := Buscaminas.Origen.inicial }, { probabilidadMina := (4 : Rat)/21, probabilidadSegura := (17 : Rat)/21, confianza := (3 : Rat)/10, origen := Buscaminas.Origen.base }, { probabilidadMina := (1 : Rat)/10, probabilidadSegura := (9 : Rat)/10, confianza := (2 : Rat)/5, origen := Buscaminas.Origen.aislada }] }, esEsquina := false, esBorde := false, distanciaBorde := 2 }, { fila := 4, columna := 6, descubierta := false, tieneBandera := false, valor := none, probabilidades := { probabilidadMina := (17 : Rat)/200, probabilidadSegura := (183 : Rat)/200, confianza := (1 : Rat)/2, origen := Buscaminas.Origen.noFrontera, calculosAnteriores := [{ probabilidadMina := (1 : Rat)/2, probabilidadSegura := (1 : Rat)/2, confianza := 0, origen := Buscaminas.Origen.inicial }, { probabilidadMina := (6 : Rat)/35, probabilidadSegura := (29 : Rat)/35, confianza := (3 : Rat)/10, origen := Buscaminas.Origen.base }, { probabilidadMina := (1 : Rat)/10, probabilidadSegura := (9 : Rat)/10, confianza := (2 : Rat)/5, origen := Buscaminas.Origen.aislada }] }, esEsquina := false, esBorde := false, distanciaBorde := 1 }, { fila := 4, columna := 7, descubierta := false, tieneBandera := false, valor := none, probabilidades := { probabilidadMina := (17 : Rat)/200, probabilidadSegura := (183 : Rat)/200, confianza := (1 : Rat)/2, origen := Buscaminas.Origen.noFrontera, calculosAnteriores := [{ probabilidadMina := (1 : Rat)/2, probabilidadSegura := (1 : Rat)/2, confianza := 0, origen := Buscaminas.Origen.inicial }, { probabilidadMina := (16 : Rat)/105, probabilidadSegura := (89 : Rat)/105, confianza := (3 : Rat)/10, origen := Buscaminas.Origen.base }, { probabilidadMina := (1 : Rat)/10, probabilidadSegura := (9 : Rat)/10, confianza := (2 : Rat)/5, origen := Buscaminas.Origen.aislada }] }, esEsquina := false, esBorde := true, distanciaBorde := 0 }], [{ fila := 5, columna := 0, descubierta := false, tieneBandera := false, valor := none, probabilidades := { probabilidadMina := (17 : Rat)/200, probabilidadSegura := (183 : Rat)/200, confianza := (1 : Rat)/2, origen := Buscaminas.Origen.noFrontera, calculosAnteriores := [{ probabilidadMina := (1 : Rat)/2, probabilidadSegura := (1 : Rat)/2, confianza := 0, origen := Buscaminas.Origen.inicial }, { probabilidadMina := (16 : Rat)/105, probabilidadSegura := (89 : Rat)/105, confianza := (3 : Rat)/10, origen := Buscaminas.Origen.base }, { probabilidadMina := (1 : Rat)/10, probabilidadSegura := (9 : Rat)/10, confianza := (2 : Rat)/5, origen := Buscaminas.Origen.aislada }] }, esEsquina := false, esBorde := true, distanciaBorde := 0 }, { fila := 5, columna := 1, descubierta := false, tieneBandera := false, valor := none, probabilidades := { probabilidadMina := (17 : Rat)/200, probabilidadSegura := (183 : Rat)/200, confianza := (1 : Rat)/2, origen := Buscaminas.Origen.noFrontera, calculosAnteriores := [{ probabilidadMina := (1 : Rat)/2, probabilidadSegura := (1 : Rat)/2, confianza := 0, origen := Buscaminas.Origen.inicial }, { probabilidadMina := (6 : Rat)/35, probabilidadSegura := (29 : Rat)/35, confianza := (3 : Rat)/10, origen := Buscaminas.Origen.base }, { probabilidadMina := (1 : Rat)/10, probabilidadSegura := (9 : Rat)/10, confianza := (2 : Rat)/5, origen := Buscaminas.Origen.aislada }] }, esEsquina := false, esBorde := false, distanciaBorde := 1 }, { fila := 5, columna := 2, descubierta := false, tieneBandera := false, valor := none, probabilidades := { probabilidadMina := (17 : Rat)/200, probabilidadSegura := (183 : Rat)/200, confianza := (1 : Rat)/2, origen := Buscaminas.Origen.noFrontera, calculosAnteriores := [{ probabilidadMina := (1 : Rat)/2, probabilidadSegura := (1 : Rat)/2, confianza := 0, origen := Buscaminas.Origen.inicial }, { probabilidadMina := (4 : Rat)/21, probabilidadSegura := (17 : Rat)/21, confianza := (3 : Rat)/10, origen := Buscaminas.Origen.base }, { probabilidadMina := (1 : Rat)/10, probabilidadSegura := (9 : Rat)/10, confianza := (2 : Rat)/5, origen := Buscaminas.Origen.aislada }] }, esEsquina := false, esBorde := false, distanciaBorde := 2 }, { fila := 5, columna := 3, descubierta := false, tieneBandera := false, valor := none, probabilidades := { probabilidadMina := (17 : Rat)/200, probabilidadSegura := (183 : Rat)/200, confianza := (1 : Rat)/2, origen := Buscaminas.Origen.noFrontera, calculosAnteriores := [{ probabilidadMina := (1 : Rat)/2, probabilidadSegura := (1 : Rat)/2, confianza := 0, origen := Buscaminas.Origen.inicial }, { probabilidadMina := (4 : Rat)/21, probabilidadSegura := (17 : Rat)/21, confianza := (3 : Rat)/10, origen := Buscaminas.Origen.base }, { probabilidadMina := (1 : Rat)/10, probabilidadSegura := (9 : Rat)/10, confianza := (2 : Rat)/5, origen := Buscaminas.Origen.aislada }] }, esEsquina := false, esBorde := false, distanciaBorde := 2 }, { fila := 5, columna := 4, descubierta := false, tieneBandera := false, valor := none, probabilidades := { probabilidadMina := (17 : Rat)/200, probabilidadSegura := (183 : Rat)/200, confianza := (1 : Rat)/2, origen := Buscaminas.Origen.noFrontera, calculosAnteriores := [{ probabilidadMina := (1 : Rat)/2, probabilidadSegura := (1 : Rat)/2, confianza := 0, origen := Buscaminas.Origen.inicial }, { probabilidadMina := (4 : Rat)/21, probabilidadSegura := (17 : Rat)/21, confianza := (3 : Rat)/10, origen := Buscaminas.Origen.base }, { probabilidadMina := (1 : Rat)/10, probabilidadSegura := (9 : Rat)/10, confianza := (2 : Rat)/5, origen := Buscaminas.Origen.aislada }] }, esEsquina := false, esBorde := false, distanciaBorde := 2 }, { fila := 5, columna := 5, descubierta := false, tieneBandera := false, valor := none, probabilidades := { probabilidadMina := (17 : Rat)/200, probabilidadSegura := (183 : Rat)/200, confianza := (1 : Rat)/2, origen := Buscaminas.Origen.noFrontera, calculosAnteriores := [{ probabilidadMina := (1 : Rat)/2, probabilidadSegura := (1 : Rat)/2, confianza := 0, origen := Buscaminas.Origen.inicial }, { probabilidadMina := (4 : Rat)/21, probabilidadSegura := (17 : Rat)/21, confianza := (3 : Rat)/10, origen := Buscaminas.Origen.base }, { probabilidadMina := (1 : Rat)/10, probabilidadSegura := (9 : Rat)/10, confianza := (2 : Rat)/5, origen := Buscaminas.Origen.aislada }] }, esEsquina := false, esBorde := false, distanciaBorde := 2 }, { fila := 5, columna := 6, descubierta := false, tieneBandera := false, valor := none, probabilidades := { probabilidadMina := (17 : Rat)/200, probabilidadSegura := (183 : Rat)/200, confianza := (1 : Rat)/2, origen := Buscaminas.Origen.noFrontera, calculosAnteriores := [{ probabilidadMina := (1 : Rat)/2, probabilidadSegura := (1 : Rat)/2, confianza := 0, origen := Buscaminas.Origen.inicial }, { probabilidadMina := (6 : Rat)/35, probabilidadSegura := (29 : Rat)/35, confianza := (3 : Rat)/10, origen := Buscaminas.Origen.base }, { probabilidadMina := (1 : Rat)/10, probabilidadSegura := (9 : Rat)/10, confianza := (2 : Rat)/5, origen := Buscaminas.Origen.aislada }] }, esEsquina := false, esBorde := false, distanciaBorde := 1 }, { fila := 5, columna := 7, descubierta := false, tieneBandera := false, valor := none, probabilidades := { probabilidadMina := (17 : Rat)/200, probabilidadSegura := (183 : Rat)/200, confianza := (1 : Rat)/2, origen := Buscaminas.Origen.noFrontera, calculosAnteriores := [{ probabilidadMina := (1 : Rat)/2, probabilidadSegura := (1 : Rat)/2, confianza := 0, origen := Buscaminas.Origen.inicial }, { probabilidadMina := (16 : Rat)/105, probabilidadSegura := (89 : Rat)/105, confianza := (3 : Rat)/10, origen := Buscaminas.Origen.base }, { probabilidadMina := (1 : Rat)/10, probabilidadSegura := (9 : Rat)/10, confianza := (2 : Rat)/5, origen := Buscaminas.Origen.aislada }] }, esEsquina := false, esBorde := true, distanciaBorde := 0 }], [{ fila := 6, columna := 0, descubierta := false, tieneBandera := false, valor := none, probabilidades := { probabilidadMina := (17 : Rat)/200, probabilidadSegura := (183 : Rat)/200, confianza := (1 : Rat)/2, origen := Buscaminas.Origen.noFrontera, calculosAnteriores := [{ probabilidadMina := (1 : Rat)/2, probabilidadSegura := (1 : Rat)/2, confianza := 0, origen := Buscaminas.Origen.inicial }, { probabilidadMina := (16 : Rat)/105, probabilidadSegura := (89 : Rat)/105, confianza := (3 : Rat)/10, origen := Buscaminas.Origen.base }, { probabilidadMina := (1 : Rat)/10, probabilidadSegura := (9 : Rat)/10, confianza := (2 : Rat)/5, origen := Buscaminas.Origen.aislada }] }, esEsquina := false, esBorde := true, distanciaBorde := 0 }, { fila := 6, columna := 1, descubierta := false, tieneBandera := false, valor := none, probabilidades := { probabilidadMina := (17 : Rat)/200, probabilidadSegura := (183 : Rat)/200, confianza := (1 : Rat)/2, origen := Buscaminas.Origen.noFrontera, calculosAnteriores := [{ probabilidadMina := (1 : Rat)/2, probabilidadSegura := (1 : Rat)/2, confianza := 0, origen := Buscaminas.Origen.inicial }, { probabilidadMina := (6 : Rat)/35, probabilidadSegura := (29 : Rat)/35, confianza := (3 : Rat)/10, origen := Buscaminas.Origen.base }, { probabilidadMina := (1 : Rat)/10, probabilidadSegura := (9 : Rat)/10, confianza := (2 : Rat)/5, origen := Buscaminas.Origen.aislada }] }, esEsquina := false, esBorde := false, distanciaBorde := 1 }, { fila := 6, columna := 2, descubierta := false, tieneBandera := false, valor := none, probabilidades := { probabilidadMina := (17 : Rat)/200, probabilidadSegura := (183 : Rat)/200, confianza := (1 : Rat)/2, origen := Buscaminas.Origen.noFrontera, calculosAnteriores := [{ probabilidadMina := (1 : Rat)/2, probabilidadSegura := (1 : Rat)/2, confianza := 0, origen := Buscaminas.Origen.inicial }, { probabilidadMina := (6 : Rat)/35, probabilidadSegura := (29 : Rat)/35, confianza := (3 : Rat)/10, origen := Buscaminas.Origen.base }, { probabilidadMina := (1 : Rat)/10, probabilidadSegura := (9 : Rat)/10, confianza := (2 : Rat)/5, origen := Buscaminas.Origen.aislada }] }, esEsquina := false, esBorde := false, distanciaBorde := 1 }, { fila := 6, columna := 3, descubierta := false, tieneBandera := false, valor := none, probabilidades := { probabilidadMina := (17 : Rat)/200, probabilidadSegura := (183 : Rat)/200, confianza := (1 : Rat)/2, origen := Buscaminas.Origen.noFrontera, calculosAnteriores := [{ probabilidadMina := (1 : Rat)/2, probabilidadSegura := (1 : Rat)/2, confianza := 0, origen := Buscaminas.Origen.inicial }, { probabilidadMina := (6 : Rat)/35, probabilidadSegura := (29 : Rat)/35, confianza := (3 : Rat)/10, origen := Buscaminas.Origen.base }, { probabilidadMina := (1 : Rat)/10, probabilidadSegura := (9 : Rat)/10, confianza := (2 : Rat)/5, origen := Buscaminas.Origen.aislada }] }, esEsquina := false, esBorde := false, distanciaBorde := 1 }, { fila := 6, columna := 4, descubierta := false, tieneBandera := false, valor := none, probabilidades := { probabilidadMina := (17 : Rat)/200, probabilidadSegura := (183 : Rat)/200, confianza := (1 : Rat)/2, origen := Buscaminas.Origen.noFrontera, calculosAnteriores := [{ probabilidadMina := (1 : Rat)/2, probabilidadSegura := (1 : Rat)/2, confianza := 0, origen := Buscaminas.Origen.inicial }, { probabilidadMina := (6 : Rat)/35, probabilidadSegura := (29 : Rat)/35, confianza := (3 : Rat)/10, origen := Buscaminas.Origen.base }, { probabilidadMina := (1 : Rat)/10, probabilidadSegura := (9 : Rat)/10, confianza := (2 : Rat)/5, origen := Buscaminas.Origen.aislada }] }, esEsquina := false, esBorde := false, distanciaBorde := 1 }, { fila := 6, columna := 5, descubierta := false, tieneBandera := false, valor := none, probabilidades := { probabilidadMina := (17 : Rat)/200, probabilidadSegura := (183 : Rat)/200, confianza := (1 : Rat)/2, origen := Buscaminas.Origen.noFrontera, calculosAnteriores := [{ probabilidadMina := (1 : Rat)/2, probabilidadSegura := (1 : Rat)/2, confianza := 0, origen := Buscaminas.Origen.inicial }, { probabilidadMina := (6 : Rat)/35, probabilidadSegura := (29 : Rat)/35, confianza := (3 : Rat)/10, origen := Buscaminas.Origen.base }, { probabilidadMina := (1 : Rat)/10, probabilidadSegura := (9 : Rat)/10, confianza := (2 : Rat)/5, origen := Buscaminas.Origen.aislada }] }, esEsquina := false, esBorde := false, distanciaBorde := 1 }, { fila := 6, columna := 6, descubierta := false, tieneBandera := false, valor := none, probabilidades := { probabilidadMina := (17 : Rat)/200, probabilidadSegura := (183 : Rat)/200, confianza := (1 : Rat)/2, origen := Buscaminas.Origen.noFrontera, calculosAnteriores := [{ probabilidadMina := (1 : Rat)/2, probabilidadSegura := (1 : Rat)/2, confianza := 0, origen := Buscaminas.Origen.inicial }, { probabilidadMina := (6 : Rat)/35, probabilidadSegura := (29 : Rat)/35, confianza := (3 : Rat)/10, origen := Buscaminas.Origen.base }, { probabilidadMina := (1 : Rat)/10, probabilidadSegura := (9 : Rat)/10, confianza := (2 : Rat)/5, origen := Buscaminas.Origen.aislada }] }, esEsquina := false, esBorde := false, distanciaBorde := 1 }, { fila := 6, columna := 7, descubierta := false, tieneBandera := false, valor := none, probabilidades := { probabilidadMina := (17 : Rat)/200, probabilidadSegura := (183 : Rat)/200, confianza := (1 : Rat)/2, origen := Buscaminas.Origen.noFrontera, calculosAnteriores := [{ probabilidadMina := (1 : Rat)/2, probabilidadSegura := (1 : Rat)/2, confianza := 0, origen := Buscaminas.Origen.inicial }, { probabilidadMina := (16 : Rat)/105, probabilidadSegura := (89 : Rat)/105, confianza := (3 : Rat)/10, origen := Buscaminas.Origen.base }, { probabilidadMina := (1 : Rat)/10, probabilidadSegura := (9 : Rat)/10, confianza := (2 : Rat)/5, origen := Buscaminas.Origen.aislada }] }, esEsquina := false, esBorde := true, distanciaBorde := 0 }], [{ fila := 7, columna := 0, descubierta := false, tieneBandera := false, valor := none, probabilidades := { probabilidadMina := (17 : Rat)/200, probabilidadSegura := (183 : Rat)/200, confianza := (1 : Rat)/2, origen := Buscaminas.Origen.noFrontera, calculosAnteriores := [{ probabilidadMina := (1 : Rat)/2, probabilidadSegura := (1 : Rat)/2, confianza := 0, origen := Buscaminas.Origen.inicial }, { probabilidadMina := (2 : Rat)/15, probabilidadSegura := (13 : Rat)/15, confianza := (3 : Rat)/10, origen := Buscaminas.Origen.base }, { probabilidadMina := (1 : Rat)/10, probabilidadSegura := (9 : Rat)/10, confianza := (2 : Rat)/5, origen := Buscaminas.Origen.aislada }] }, esEsquina := true, esBorde := true, distanciaBorde := 0 }, { fila := 7, columna := 1, descubierta := false, tieneBandera := false, valor := none, probabilidades := { probabilidadMina := (17 : Rat)/200, probabilidadSegura := (183 : Rat)/200, confianza := (1 : Rat)/2, origen := Buscaminas.Origen.noFrontera, calculosAnteriores := [{ probabilidadMina := (1 : Rat)/2, probabilidadSegura := (1 : Rat)/2, confianza := 0, origen := Buscaminas.Origen.inicial }, { probabilidadMina := (16 : Rat)/105, probabilidadSegura := (89 : Rat)/105, confianza := (3 : Rat)/10, origen := Buscaminas.Origen.base }, { probabilidadMina := (1 : Rat)/10, probabilidadSegura := (9 : Rat)/10, confianza := (2 : Rat)/5, origen := Buscaminas.Origen.aislada }] }, esEsquina := false, esBorde := true, distanciaBorde := 0 }, { fila := 7, columna := 2, descubierta := false, tieneBandera := false, valor := none, probabilidades := { probabilidadMina := (17 : Rat)/200, probabilidadSegura := (183 : Rat)/200, confianza := (1 : Rat)/2, origen := Buscaminas.Origen.noFrontera, calculosAnteriores := [{ probabilidadMina := (1 : Rat)/2, probabilidadSegura := (1 : Rat)/2, confianza := 0, origen := Buscaminas.Origen.inicial }, { probabilidadMina := (16 : Rat)/105, probabilidadSegura := (89 : Rat)/105, confianza := (3 : Rat)/10, origen := Buscaminas.Origen.base }, { probabilidadMina := (1 : Rat)/10, probabilidadSegura := (9 : Rat)/10, confianza := (2 : Rat)/5, origen := Buscaminas.Origen.aislada }] }, esEsquina := false, esBorde := true, distanciaBorde := 0 }, { fila := 7, columna := 3, descubierta := false, tieneBandera := false, valor := none, probabilidades := { probabilidadMina := (17 : Rat)/200, probabilidadSegura := (183 : Rat)/200, confianza := (1 : Rat)/2, origen := Buscaminas.Origen.noFrontera, calculosAnteriores := [{ probabilidadMina := (1 : Rat)/2, probabilidadSegura := (1 : Rat)/2, confianza := 0, origen := Buscaminas.Origen.inicial }, { probabilidadMina := (16 : Rat)/105, probabilidadSegura := (89 : Rat)/105, confianza := (3 : Rat)/10, origen := Buscaminas.Origen.base }, { probabilidadMina := (1 : Rat)/10, probabilidadSegura := (9 : Rat)/10, confianza := (2 : Rat)/5, origen := Buscaminas.Origen.aislada }] }, esEsquina := false, esBorde := true, distanciaBorde := 0 }, { fila := 7, columna := 4, descubierta := false, tieneBandera := false, valor := none, probabilidades := { probabilidadMina := (17 : Rat)/200, probabilidadSegura := (183 : Rat)/200, confianza := (1 : Rat)/2, origen := Buscaminas.Origen.noFrontera, calculosAnteriores := [{ probabilidadMina := (1 : Rat)/2, probabilidadSegura := (1 : Rat)/2, confianza := 0, origen := Buscaminas.Origen.inicial }, { probabilidadMina := (16 : Rat)/105, probabilidadSegura := (89 : Rat)/105, confianza := (3 : Rat)/10, origen := Buscaminas.Origen.base }, { probabilidadMina := (1 : Rat)/10, probabilidadSegura := (9 : Rat)/10, confianza := (2 : Rat)/5, origen := Buscaminas.Origen.aislada }] }, esEsquina := false, esBorde := true, distanciaBorde := 0 }, { fila := 7, columna := 5, descubierta := false, tieneBandera := false, valor := none, probabilidades := { probabilidadMina := (17 : Rat)/200, probabilidadSegura := (183 : Rat)/200, confianza := (1 : Rat)/2, origen := Buscaminas.Origen.noFrontera, calculosAnteriores := [{ probabilidadMina := (1 : Rat)/2, probabilidadSegura := (1 : Rat)/2, confianza := 0, origen := Buscaminas.Origen.inicial }, { probabilidadMina := (16 : Rat)/105, probabilidadSegura := (89 : Rat)/105, confianza := (3 : Rat)/10, origen := Buscaminas.Origen.base }, { probabilidadMina := (1 : Rat)/10, probabilidadSegura := (9 : Rat)/10, confianza := (2 : Rat)/5, origen := Buscaminas.Origen.aislada }] }, esEsquina := false, esBorde := true, distanciaBorde := 0 }, { fila := 7, columna := 6, descubierta := false, tieneBandera := false, valor := none, probabilidades := { probabilidadMina := (17 : Rat)/200, probabilidadSegura := (183 : Rat)/200, confianza := (1 : Rat)/2, origen := Buscaminas.Origen.noFrontera, calculosAnteriores := [{ probabilidadMina := (1 : Rat)/2, probabilidadSegura := (1 : Rat)/2, confianza := 0, origen := Buscaminas.Origen.inicial }, { probabilidadMina := (16 : Rat)/105, probabilidadSegura := (89 : Rat)/105, confianza := (3 : Rat)/10, origen := Buscaminas.Origen.base }, { probabilidadMina := (1 : Rat)/10, probabilidadSegura := (9 : Rat)/10, confianza := (2 : Rat)/5, origen := Buscaminas.Origen.aislada }] }, esEsquina := false, esBorde := true, distanciaBorde := 0 }, { fila := 7, columna := 7, descubierta := false, tieneBandera := false, valor := none, probabilidades := { probabilidadMina := (17 : Rat)/200, probabilidadSegura := (183 : Rat)/200, confianza := (1 : Rat)/2, origen := Buscaminas.Origen.noFrontera, calculosAnteriores := [{ probabilidadMina := (1 : Rat)/2, probabilidadSegura := (1 : Rat)/2, confianza := 0, origen := Buscaminas.Origen.inicial }, { probabilidadMina := (2 : Rat)/15, probabilidadSegura := (13 : Rat)/15, confianza := (3 : Rat)/10, origen := Buscaminas.Origen.base }, { probabilidadMina := (1 : Rat)/10, probabilidadSegura := (9 : Rat)/10, confianza := (2 : Rat)/5, origen := Buscaminas.Origen.aislada }] }, esEsquina := true, esBorde := true, distanciaBorde := 0 }]], contadorDescubiertas := 1, contadorBanderas := 0, restriccionesActualizadas := false, ultimoCambio := Buscaminas.UltimoCambio.descubierta 0 0 (Buscaminas.Valor.num 0) }

/-- The spec's reading of the enumeration stage, written from the claim's own
words for comparison with `calcularProbabilidadesPorEnumeracion`: among all
`2^n` assignments of the component, keep those consistent with every
restriction (digit minus placed flags met exactly) and take the fraction in
which cell `i` holds a mine.  The restriction translation is shared verbatim
with the source embedding so the two definitions quantify over the same
assignments. -/
def fraccionConsistenteConMina (t : Tablero) (g : GrupoMotor) (i : ℕ) : ℚ :=
  let restricciones := g.restricciones.map fun r =>
    let ady := (t.obtenerCeldasAdyacentes r.celda.fila r.celda.columna).filter
      fun c => ¬c.descubierta
    let celdasAfectadas := ady.filterMap fun c =>
      (List.range g.celdas.length).find? fun i =>
        match g.celdas.get? i with
        | some cel => cel.fila == c.fila && cel.columna == c.columna
        | none => false
    let banderasActuales :=
      ((t.obtenerCeldasAdyacentes r.celda.fila r.celda.columna).filter
        fun c => c.tieneBandera).length
    ((r.valor : ℤ) - banderasActuales, celdasAfectadas)
  let validas := (generarCombinaciones g.celdas.length).filter fun cb =>
    restricciones.all fun r =>
      ((r.2.foldl (fun acc idx => acc + cb.getD idx 0) 0 : ℕ) : ℤ) = r.1
  ((validas.filter fun cb => cb.getD i 0 == 1).length : ℚ) / (validas.length : ℚ)

/-- Three consecutive `registrarContradiccion` calls, the shape claim C7
quantifies over. -/
def trasTresContradicciones (g : GestorMemoria) (t1 t2 t3 : ℕ) : GestorMemoria :=
  registrarContradiccion (registrarContradiccion (registrarContradiccion g t1) t2) t3

end Buscaminas

/-! ## Claim theorems: C2 -/

namespace Buscaminas

/-- **C2** — For every cell and every call of `actualizarProbabilidades`, the
new (probability, confidence, provenance) triple is stored iff the new
confidence is strictly higher, or equal with strictly higher provenance in the
order revelada > bandera > analisis100 > restricciones > patron > subconjunto >
probabilidad > memoria > estrategia > inicial; in particular a cell at
confidence 1 is never overwritten by a source of lower or equal provenance and
confidence at most 1. -/
theorem c2_actualizacion_guardada (cd : Celda) (p conf : ℚ) (o : Origen) :
    ((conf > cd.probabilidades.confianza ∨
      (conf = cd.probabilidades.confianza ∧
       jerarquia o > jerarquia cd.probabilidades.origen)) →
      ((cd.actualizarProbabilidades p conf o).probabilidades.probabilidadMina = p ∧
       (cd.actualizarProbabilidades p conf o).probabilidades.probabilidadSegura = 1 - p ∧
       (cd.actualizarProbabilidades p conf o).probabilidades.confianza = conf ∧
       (cd.actualizarProbabilidades p conf o).probabilidades.origen = o)) ∧
    (¬(conf > cd.probabilidades.confianza ∨
       (conf = cd.probabilidades.confianza ∧
        jerarquia o > jerarquia cd.probabilidades.origen)) →
      cd.actualizarProbabilidades p conf o = cd) ∧
    (cd.probabilidades.confianza = 1 → conf ≤ 1 →
      jerarquia o ≤ jerarquia cd.probabilidades.origen →
      cd.actualizarProbabilidades p conf o = cd) ∧
    (jerarquia .revelada > jerarquia .bandera ∧
     jerarquia .bandera > jerarquia .analisis100 ∧
     jerarquia .analisis100 > jerarquia .restricciones ∧
     jerarquia .restricciones > jerarquia .patron ∧
     jerarquia .patron > jerarquia .subconjunto ∧
     jerarquia .subconjunto > jerarquia .probabilidad ∧
     jerarquia .probabilidad > jerarquia .memoria ∧
     jerarquia .memoria > jerarquia .estrategia ∧
     jerarquia .estrategia > jerarquia .inicial) := by
  refine ⟨?_, ?_, ?_, by decide⟩
  · intro h
    simp only [Celda.actualizarProbabilidades, esOrigenMasConfiable,
      decide_eq_true_eq]
    rw [if_pos]
    · exact ⟨rfl, rfl, rfl, rfl⟩
    · rcases h with h | ⟨h1, h2⟩
      · exact Or.inl h
      · exact Or.inr ⟨h1, by simpa using h2⟩
  · intro h
    simp only [Celda.actualizarProbabilidades, esOrigenMasConfiable,
      decide_eq_true_eq]
    rw [if_neg]
    intro hc
    rcases hc with hc | ⟨hc1, hc2⟩
    · exact h (Or.inl hc)
    · exact h (Or.inr ⟨hc1, by simpa using hc2⟩)
  · intro hconf hle hjer
    simp only [Celda.actualizarProbabilidades, esOrigenMasConfiable,
      decide_eq_true_eq]
    rw [if_neg]
    intro hc
    rcases hc with hc | ⟨_, hc2⟩
    · rw [hconf] at hc; exact absurd hle (not_le.mpr hc)
    · have : jerarquia o > jerarquia cd.probabilidades.origen := by simpa using hc2
      exact absurd hjer (not_le.mpr this)

/-- Looking a cell up after modifying the cell at that same position applies
the modification; any other position is untouched. -/
theorem Tablero.obtenerCelda_modificarCelda (t : Tablero) (f c : ℕ)
    (g : Celda → Celda) (f' c' : ℤ) :
    (t.modificarCelda f c g).obtenerCelda f' c' =
      if f' = (f : ℤ) ∧ c' = (c : ℤ) then (t.obtenerCelda f' c').map g
      else t.obtenerCelda f' c' := by
  unfold Tablero.obtenerCelda Tablero.modificarCelda
  have hval : (Tablero.esPosicionValida
      { t with celdas := t.celdas.modify (fun row => row.modify g c) f } f' c')
      = t.esPosicionValida f' c' := rfl
  rw [hval]
  by_cases hv : t.esPosicionValida f' c' = true
  · rw [if_pos hv, if_pos hv]
    simp only [List.get?_eq_getElem?]
    by_cases hf : f' = (f : ℤ)
    · by_cases hc : c' = (c : ℤ)
      · have hfn : f'.toNat = f := by omega
        have hcn : c'.toNat = c := by omega
        rw [if_pos ⟨hf, hc⟩, hfn, hcn, List.getElem?_modify_eq]
        cases t.celdas[f]? with
        | none => rfl
        | some row =>
          simp only [Option.map_some, Option.some_bind, Option.bind_some,
            List.getElem?_modify_eq]
          cases row[c]? <;> rfl
      · have hcn : c ≠ c'.toNat := by
          unfold Tablero.esPosicionValida at hv
          simp only [decide_eq_true_eq] at hv
          omega
        rw [if_neg (by simp [hc])]
        have hfn : f'.toNat = f := by omega
        rw [hfn, List.getElem?_modify_eq]
        cases t.celdas[f]? with
        | none => rfl
        | some row =>
          simp only [Option.map_some, Option.some_bind]
          rw [List.getElem?_modify_ne _ _ hcn]
    · have hfn : f ≠ f'.toNat := by
        unfold Tablero.esPosicionValida at hv
        simp only [decide_eq_true_eq] at hv
        omega
      rw [if_neg (by simp [hf]), List.getElem?_modify_ne _ _ hfn]
  · rw [if_neg hv, if_neg hv]
    split <;> rfl

/-- A successful lookup means the position is valid. -/
theorem Tablero.obtenerCelda_valida {t : Tablero} {f c : ℤ} {cd : Celda}
    (h : t.obtenerCelda f c = some cd) : t.esPosicionValida f c = true := by
  unfold Tablero.obtenerCelda at h
  by_cases hv : t.esPosicionValida f c = true
  · exact hv
  · rw [if_neg hv] at h; exact absurd h (by simp)

/-- Well-formedness extends to every (`ℤ`-valued) lookup: out-of-range lookups
return `none`, in-range ones are covered by the grid scan. -/
theorem tableroBienFormado_lookup {t : Tablero}
    (h : tableroBienFormado t = true) :
    ∀ (f c : ℤ) (cd : Celda), t.obtenerCelda f c = some cd →
      (cd.fila : ℤ) = f ∧ (cd.columna : ℤ) = c := by
  intro f c cd hget
  have hval := Tablero.obtenerCelda_valida hget
  unfold Tablero.esPosicionValida at hval
  simp only [decide_eq_true_eq] at hval
  obtain ⟨hf0, hff, hc0, hcc⟩ := hval
  unfold tableroBienFormado at h
  simp only [List.all_eq_true, List.mem_range] at h
  have hnat : f.toNat < t.filas ∧ c.toNat < t.columnas := by omega
  have := h f.toNat hnat.1 c.toNat hnat.2
  have hsame : t.obtenerCelda f.toNat c.toNat = t.obtenerCelda f c := by
    have hfz : ((f.toNat : ℤ)) = f := by omega
    have hcz : ((c.toNat : ℤ)) = c := by omega
    rw [hfz, hcz]
  rw [hsame, hget] at this
  simp only [Bool.and_eq_true, beq_iff_eq] at this
  omega

/-- Witness for `c2_actualizacion_guardada`: a fresh cell record at confidence
`1/2` from `restricciones` accepts an update at confidence `4/5`, rejects an
equal-confidence lower-provenance one, and a certainty record is kept. -/
theorem c2_actualizacion_guardada_witness :
    (let cd : Celda :=
      { fila := 0, columna := 0, descubierta := false, tieneBandera := false,
        valor := none,
        probabilidades :=
          { probabilidadMina := 0.3, probabilidadSegura := 0.7,
            confianza := 0.5, origen := .restricciones,
            calculosAnteriores := [] },
        esEsquina := false, esBorde := false, distanciaBorde := 0 }
     (cd.actualizarProbabilidades 0.9 0.8 .probabilidad).probabilidades.probabilidadMina
       = 0.9 ∧
     cd.actualizarProbabilidades 0.9 0.5 .probabilidad = cd) := by
  refine ⟨(c2_actualizacion_guardada _ 0.9 0.8 .probabilidad).1 ?_ |>.1, ?_⟩
  · exact Or.inl (by norm_num)
  · exact (c2_actualizacion_guardada _ 0.9 0.5 .probabilidad).2.1
      (by rintro (h | ⟨_, h2⟩) <;> simp_all [jerarquia])

/-! ## Claim theorems: C1 -/

/-- Membership of a position in an extended batch splits off the new entry. -/
theorem posEnBanderas_append (acc : List Bandera) (b : Bandera) (f c : ℕ) :
    posEnBanderas (acc ++ [b]) f c =
      (posEnBanderas acc f c || (b.fila == f && b.columna == c)) := by
  unfold posEnBanderas
  simp [List.any_append]

/-- `Nat` boolean equality is symmetric. -/
theorem natBeq_comm (a b : ℕ) : (a == b) = (b == a) := by
  by_cases h : a = b
  · subst h; rfl
  · have h2 : ¬b = a := fun e => h e.symm
    simp [h, h2]

/-- Every neighbour arises from a lookup at one of the eight offsets. -/
theorem mem_obtenerCeldasAdyacentes {t : Tablero} {f c : ℤ} {x : Celda}
    (h : x ∈ t.obtenerCeldasAdyacentes f c) :
    ∃ i j, (i, j) ∈ Tablero.offsetsAdyacentes ∧
      t.obtenerCelda (f + i) (c + j) = some x := by
  unfold Tablero.obtenerCeldasAdyacentes at h
  rw [List.mem_filterMap] at h
  obtain ⟨⟨i, j⟩, hm, hg⟩ := h
  exact ⟨i, j, hm, hg⟩

/-- One step of the global filter preserves the flag-count bound: a kept
candidate was checked against every restriction referencing its cell, counting
existing flags, previously kept candidates and itself. -/
theorem validar_paso_invariante {t : Tablero} (hbf : tableroBienFormado t = true)
    {b : Bandera}
    (hb : ∃ cd, t.obtenerCelda (b.fila : ℤ) (b.columna : ℤ) = some cd ∧
      cd.descubierta = false)
    {acc : List Bandera}
    (hinv : ∀ (f0 c0 : ℕ) (cr : Celda),
      t.obtenerCelda (f0 : ℤ) (c0 : ℤ) = some cr → cr.tieneValorNumerico = true →
      conteoBanderasCon t acc f0 c0 ≤
        max (valorNumericoD cr) (conteoBanderasCon t [] f0 c0)) :
    ∀ (f0 c0 : ℕ) (cr : Celda),
      t.obtenerCelda (f0 : ℤ) (c0 : ℤ) = some cr → cr.tieneValorNumerico = true →
      conteoBanderasCon t
          (if esConsistenteGlobal t acc b then acc ++ [b] else acc) f0 c0 ≤
        max (valorNumericoD cr) (conteoBanderasCon t [] f0 c0) := by
  intro f0 c0 cr hget0 hnum0
  by_cases hcons : esConsistenteGlobal t acc b = true
  · rw [if_pos hcons]
    by_cases hadj : ∃ x ∈ t.obtenerCeldasAdyacentes (f0 : ℤ) (c0 : ℤ),
        x.fila = b.fila ∧ x.columna = b.columna
    · -- the candidate is adjacent to the constraint: its acceptance check
      -- covered exactly the extended count.
      obtain ⟨x, hxmem, hxf, hxc⟩ := hadj
      obtain ⟨cdB, hgetB, hdescB⟩ := hb
      obtain ⟨i, j, _, hgx⟩ := mem_obtenerCeldasAdyacentes hxmem
      have hwf := tableroBienFormado_lookup hbf _ _ _ hgx
      have hgx' : t.obtenerCelda (b.fila : ℤ) (b.columna : ℤ) = some x := by
        have h1 : (b.fila : ℤ) = (f0 : ℤ) + i := by rw [← hxf]; exact hwf.1
        have h2 : (b.columna : ℤ) = (c0 : ℤ) + j := by rw [← hxc]; exact hwf.2
        rw [h1, h2]; exact hgx
      have hxB : x = cdB := by
        rw [hgx'] at hgetB; exact (Option.some_inj.mp hgetB)
      have hxdesc : x.descubierta = false := by rw [hxB]; exact hdescB
      -- the restriction with origin (f0, c0) is attached to b's cell
      have hval0 := Tablero.obtenerCelda_valida hget0
      have hf0lt : f0 < t.filas ∧ c0 < t.columnas := by
        unfold Tablero.esPosicionValida at hval0
        simp only [decide_eq_true_eq] at hval0
        omega
      have hxsin : x ∈ (t.obtenerCeldasAdyacentes (f0 : ℤ) (c0 : ℤ)).filter
          (fun y => ¬y.descubierta) := by
        rw [List.mem_filter]
        exact ⟨hxmem, by simp [hxdesc]⟩
      have hrmem :
          ({ celdaOrigen := (f0, c0), valor := valorNumericoD cr,
             banderasColocadas := ((t.obtenerCeldasAdyacentes (f0 : ℤ) (c0 : ℤ)).filter
               (fun y => y.tieneBandera)).length,
             minasRestantes := (valorNumericoD cr : ℤ) -
               ((t.obtenerCeldasAdyacentes (f0 : ℤ) (c0 : ℤ)).filter
                 (fun y => y.tieneBandera)).length,
             celdasAfectadas := ((t.obtenerCeldasAdyacentes (f0 : ℤ) (c0 : ℤ)).filter
               (fun y => ¬y.descubierta)).map (fun y => (y.fila, y.columna)) } :
            Restriccion) ∈ t.restriccionesDe b.fila b.columna := by
        unfold Tablero.restriccionesDe
        rw [List.mem_flatMap]
        refine ⟨f0, List.mem_range.mpr hf0lt.1, ?_⟩
        rw [List.mem_filterMap]
        refine ⟨c0, List.mem_range.mpr hf0lt.2, ?_⟩
        rw [hget0]
        simp only [hnum0, if_true]
        rw [if_pos]
        constructor
        · exact List.length_pos.mpr (List.ne_nil_of_mem hxsin)
        · rw [List.any_eq_true]
          exact ⟨x, hxsin, by simp [hxf, hxc]⟩
      have hcheck := List.all_eq_true.mp hcons _ hrmem
      simp only [hget0, hnum0, if_true, decide_eq_true_eq] at hcheck
      have hconteo : conteoBanderasCon t (acc ++ [b]) f0 c0 =
          ((t.obtenerCeldasAdyacentes (f0 : ℤ) (c0 : ℤ)).filter fun y =>
            y.tieneBandera || posEnBanderas acc y.fila y.columna ||
            (y.fila == b.fila && y.columna == b.columna)).length := by
        unfold conteoBanderasCon
        congr 1
        apply List.filter_congr
        intro y _
        rw [posEnBanderas_append, natBeq_comm b.fila y.fila,
          natBeq_comm b.columna y.columna, Bool.or_assoc]
      rw [hconteo]
      exact le_trans hcheck (le_max_left _ _)
    · -- the candidate is not adjacent: the count is unchanged.
      have heq : conteoBanderasCon t (acc ++ [b]) f0 c0 =
          conteoBanderasCon t acc f0 c0 := by
        unfold conteoBanderasCon
        congr 1
        apply List.filter_congr
        intro y hy
        rw [posEnBanderas_append]
        have hne : ¬(y.fila = b.fila ∧ y.columna = b.columna) := fun hcontra =>
          hadj ⟨y, hy, hcontra⟩
        have : (b.fila == y.fila && b.columna == y.columna) = false := by
          rw [natBeq_comm b.fila y.fila, natBeq_comm b.columna y.columna]
          rcases Decidable.em (y.fila = b.fila) with h1 | h1
          · have h2 : ¬y.columna = b.columna := fun h2 => hne ⟨h1, h2⟩
            simp [h2]
          · simp [h1]
        rw [this, Bool.or_false]
      rw [heq]
      exact hinv f0 c0 cr hget0 hnum0
  · rw [if_neg hcons]
    exact hinv f0 c0 cr hget0 hnum0

/-- **C1** — the batch kept by the global-consistency filter never pushes any
constraint's flag count past its digit value: for every board, every candidate
list of unrevealed cells (which is what all four passes produce) and every
revealed numeric cell, the number of its neighbours that are flagged or kept
in the batch stays at or below the digit value — unless the pre-existing flags
alone already exceeded it, in which case the batch adds nothing beyond them
(the bound `max(value, pre-existing count)`). -/
theorem c1_filtro_global_cota (t : Tablero) (candidatas : List Bandera)
    (hbf : tableroBienFormado t = true)
    (hL : ∀ b ∈ candidatas, ∃ cd,
      t.obtenerCelda (b.fila : ℤ) (b.columna : ℤ) = some cd ∧
      cd.descubierta = false)
    (f0 c0 : ℕ) (cr : Celda)
    (hget : t.obtenerCelda (f0 : ℤ) (c0 : ℤ) = some cr)
    (hnum : cr.tieneValorNumerico = true) :
    conteoBanderasCon t (validarConsistenciaGlobal t candidatas) f0 c0 ≤
      max (valorNumericoD cr) (conteoBanderasCon t [] f0 c0) := by
  have main : ∀ (M : List Bandera) (acc : List Bandera),
      (∀ b ∈ M, ∃ cd, t.obtenerCelda (b.fila : ℤ) (b.columna : ℤ) = some cd ∧
        cd.descubierta = false) →
      (∀ (f1 c1 : ℕ) (cr1 : Celda),
        t.obtenerCelda (f1 : ℤ) (c1 : ℤ) = some cr1 →
        cr1.tieneValorNumerico = true →
        conteoBanderasCon t acc f1 c1 ≤
          max (valorNumericoD cr1) (conteoBanderasCon t [] f1 c1)) →
      (∀ (f1 c1 : ℕ) (cr1 : Celda),
        t.obtenerCelda (f1 : ℤ) (c1 : ℤ) = some cr1 →
        cr1.tieneValorNumerico = true →
        conteoBanderasCon t
          (M.foldl (fun acc b =>
            if esConsistenteGlobal t acc b then acc ++ [b] else acc) acc) f1 c1 ≤
          max (valorNumericoD cr1) (conteoBanderasCon t [] f1 c1)) := by
    intro M
    induction M with
    | nil => intro acc _ hinv; simpa using hinv
    | cons b M ih =>
      intro acc hM hinv
      simp only [List.foldl_cons]
      exact ih _ (fun y hy => hM y (List.mem_cons_of_mem _ hy))
        (validar_paso_invariante hbf (hM b (List.mem_cons_self b M)) hinv)
  exact main candidatas [] hL
    (fun f1 c1 cr1 _ _ => le_max_right _ _) f0 c0 cr hget hnum

/-- Witness for `c1_filtro_global_cota`: a 1×3 board with `(0,1)` revealed as
`1` and both ends candidates; the filter keeps only the first, and the bound
holds at the numeric cell. -/
theorem c1_filtro_global_cota_witness :
    (let t1 := ((Tablero.crear 1 3).establecerValorCelda 0 1 (.num 1)).1
     let lote := validarConsistenciaGlobal t1
       [⟨0, 0⟩, ⟨0, 2⟩]
     lote = [⟨0, 0⟩] ∧
     conteoBanderasCon t1 lote 0 1 ≤
       max (valorNumericoD (((Tablero.celdaInicial 1 3 0 1).establecerValor (.num 1))))
         (conteoBanderasCon t1 [] 0 1)) := by
  constructor
  · decide
  · exact c1_filtro_global_cota _ _ (by decide)
      (by
        intro b hb
        simp only [List.mem_cons, List.not_mem_nil, or_false] at hb
        rcases hb with h | h
        · subst h; exact ⟨Tablero.celdaInicial 1 3 0 0, by decide, rfl⟩
        · subst h; exact ⟨Tablero.celdaInicial 1 3 0 2, by decide, rfl⟩)
      0 1 _ (by decide) (by decide)

/-! ## Claim theorems: C6 -/

/-- The estimate update never changes a cell's reveal/flag/value skeleton. -/
theorem celdaSinProb_actualizar (cd : Celda) (p conf : ℚ) (o : Origen) :
    celdaSinProb (cd.actualizarProbabilidades p conf o) = celdaSinProb cd := by
  unfold Celda.actualizarProbabilidades celdaSinProb
  split <;> rfl

/-- `mismoEsqueleto` is transitive. -/
theorem mismoEsqueleto_trans {t0 t1 t2 : Tablero} (h1 : mismoEsqueleto t0 t1)
    (h2 : mismoEsqueleto t1 t2) : mismoEsqueleto t0 t2 :=
  fun f c => (h2 f c).trans (h1 f c)

/-- Modifying one cell by a skeleton-preserving function preserves
`mismoEsqueleto`. -/
theorem mismoEsqueleto_modificar (t : Tablero) (f c : ℕ) (g : Celda → Celda)
    (hg : ∀ cd, celdaSinProb (g cd) = celdaSinProb cd) :
    mismoEsqueleto t (t.modificarCelda f c g) := by
  intro f' c'
  rw [Tablero.obtenerCelda_modificarCelda]
  split
  · cases h : t.obtenerCelda f' c' with
    | none => rfl
    | some cd => simp [hg]
  · rfl

/-- The invariant passes through a conditional whose branches both satisfy it. -/
theorem invGB_ite {t0 : Tablero} {c : Prop} [Decidable c] {a b : EstadoGB}
    (ha : invGB t0 a) (hb : invGB t0 b) : invGB t0 (if c then a else b) := by
  split
  · exact ha
  · exact hb

/-- `actualizarProbEn` preserves the run invariant. -/
theorem invGB_actualizarProbEn {t0 : Tablero} {st : EstadoGB}
    (h : invGB t0 st) (f c : ℕ) (p conf : ℚ) (o : Origen) :
    invGB t0 (actualizarProbEn st f c p conf o) := by
  refine ⟨?_, h.2⟩
  exact mismoEsqueleto_trans h.1
    (mismoEsqueleto_modificar _ _ _ _ (fun cd => celdaSinProb_actualizar cd p conf o))

/-- `intentarMarcar` preserves the run invariant: it only marks after
`esSeguroColocarBandera`, whose first test rejects flagged or revealed cells. -/
theorem invGB_intentarMarcar {t0 : Tablero} {st : EstadoGB}
    (h : invGB t0 st) (f c : ℕ) (o : Origen) :
    invGB t0 (intentarMarcar st f c o) := by
  unfold intentarMarcar
  split
  case h_2 => exact h
  case h_1 cd hget =>
    split
    case isFalse => exact h
    case isTrue hseg =>
      have hflags : cd.tieneBandera = false ∧ cd.descubierta = false := by
        unfold esSeguroColocarBandera at hseg
        by_cases hc : (cd.tieneBandera ∨ cd.descubierta)
        · rw [if_pos hc] at hseg; exact absurd hseg (by simp)
        · constructor
          · by_cases hb : cd.tieneBandera = true
            · exact absurd (Or.inl (by simp [hb])) hc
            · simpa using hb
          · by_cases hd : cd.descubierta = true
            · exact absurd (Or.inr (by simp [hd])) hc
            · simpa using hd
      have h' := invGB_actualizarProbEn h f c 1 1 o
      refine ⟨h'.1, ?_⟩
      intro b hb
      rcases List.mem_append.mp hb with hmem | hmem
      · exact h'.2 b hmem
      · have hbe : b = (⟨f, c⟩ : Bandera) := by simpa using hmem
        subst hbe
        have hesq := h.1 (f : ℤ) (c : ℤ)
        rw [hget] at hesq
        cases hget0 : t0.obtenerCelda (f : ℤ) (c : ℤ) with
        | none => rw [hget0] at hesq; exact absurd hesq (by simp)
        | some cd0 =>
          rw [hget0] at hesq
          have hesq2 : celdaSinProb cd = celdaSinProb cd0 := by
            simpa using hesq
          refine ⟨cd0, rfl, ?_, ?_⟩
          · have := congrArg Celda.tieneBandera hesq2.symm
            simpa [celdaSinProb, hflags.1] using this
          · have := congrArg Celda.descubierta hesq2.symm
            simpa [celdaSinProb, hflags.2] using this

/-- Folding an invariant-preserving step preserves the invariant. -/
theorem foldl_preserva {α : Type} {P : EstadoGB → Prop}
    {step : EstadoGB → α → EstadoGB}
    (hstep : ∀ st a, P st → P (step st a)) :
    ∀ (l : List α) (st : EstadoGB), P st → P (l.foldl step st) := by
  intro l
  induction l with
  | nil => exact fun st h => h
  | cons a l ih => exact fun st h => ih _ (hstep st a h)

/-- A plain marking fold preserves the run invariant. -/
theorem invGB_fold_marcar {t0 : Tablero} {o : Origen} :
    ∀ (l : List Celda) (st : EstadoGB), invGB t0 st →
      invGB t0 (l.foldl (fun st c => intentarMarcar st c.fila c.columna o) st) :=
  foldl_preserva fun st c h => invGB_intentarMarcar h c.fila c.columna o

/-- A marking fold guarded by `!tieneBandera && !descubierta` preserves the
run invariant. -/
theorem invGB_fold_marcar_bd {t0 : Tablero} {o : Origen} :
    ∀ (l : List Celda) (st : EstadoGB), invGB t0 st →
      invGB t0 (l.foldl (fun st c =>
        if ¬c.tieneBandera ∧ ¬c.descubierta then
          intentarMarcar st c.fila c.columna o
        else st) st) :=
  foldl_preserva fun st c h =>
    invGB_ite (invGB_intentarMarcar h c.fila c.columna o) h

/-- A marking fold guarded by `!descubierta && !tieneBandera` preserves the
run invariant. -/
theorem invGB_fold_marcar_db {t0 : Tablero} {o : Origen} :
    ∀ (l : List Celda) (st : EstadoGB), invGB t0 st →
      invGB t0 (l.foldl (fun st c =>
        if ¬c.descubierta ∧ ¬c.tieneBandera then
          intentarMarcar st c.fila c.columna o
        else st) st) :=
  foldl_preserva fun st c h =>
    invGB_ite (invGB_intentarMarcar h c.fila c.columna o) h

/-- A marking fold guarded by `!tieneBandera` preserves the run invariant. -/
theorem invGB_fold_marcar_b {t0 : Tablero} {o : Origen} :
    ∀ (l : List Celda) (st : EstadoGB), invGB t0 st →
      invGB t0 (l.foldl (fun st c =>
        if ¬c.tieneBandera then intentarMarcar st c.fila c.columna o
        else st) st) :=
  foldl_preserva fun st c h =>
    invGB_ite (invGB_intentarMarcar h c.fila c.columna o) h

/-- The guarded probability-zero fold of the intersection analysis preserves
the run invariant. -/
theorem invGB_fold_seguras {t0 : Tablero} :
    ∀ (l : List Celda) (st : EstadoGB), invGB t0 st →
      invGB t0 (l.foldl (fun st c =>
        if ¬c.descubierta ∧ ¬c.tieneBandera then
          actualizarProbEn st c.fila c.columna 0 1 .analisis100
        else st) st) :=
  foldl_preserva fun st c h =>
    invGB_ite (invGB_actualizarProbEn h c.fila c.columna 0 1 .analisis100) h

/-- The basic counting pass preserves the run invariant. -/
theorem invGB_basicas {t0 : Tablero} {st : EstadoGB} (h : invGB t0 st) :
    invGB t0 (analizarRestriccionesBasicas st) := by
  unfold analizarRestriccionesBasicas
  refine foldl_preserva ?_ _ _ h
  intro st cn hst
  exact invGB_ite (invGB_fold_marcar _ _ hst) hst

/-- The subset application preserves the run invariant. -/
theorem invGB_aplicarSubconjunto {t0 : Tablero} {st : EstadoGB}
    (h : invGB t0 st) (cSub cSup : Celda) (adySub adySup : List Celda) :
    invGB t0 (aplicarAnalisisSubconjunto st cSub cSup adySub adySup) := by
  unfold aplicarAnalisisSubconjunto
  exact invGB_ite (invGB_fold_marcar_bd _ _ h) h

/-- The partial-intersection analysis preserves the run invariant. -/
theorem invGB_interseccion {t0 : Tablero} {st : EstadoGB}
    (h : invGB t0 st) (cA cB : Celda) (adyA adyB : List Celda) :
    invGB t0 (analizarInterseccionParcial st cA cB adyA adyB) := by
  unfold analizarInterseccionParcial
  refine invGB_ite ?_ h
  refine invGB_ite ?_ ?_ <;>
    [skip; skip] <;>
    first
    | (refine invGB_fold_marcar_db _ _ ?_
       refine invGB_ite ?_ ?_ <;>
         first
         | (refine invGB_fold_seguras _ _ ?_
            exact invGB_ite (invGB_fold_seguras _ _ h) h)
         | exact invGB_ite (invGB_fold_seguras _ _ h) h)
    | (refine invGB_ite ?_ ?_ <;>
         first
         | (refine invGB_fold_seguras _ _ ?_
            exact invGB_ite (invGB_fold_seguras _ _ h) h)
         | exact invGB_ite (invGB_fold_seguras _ _ h) h)

/-- The subset/intersection pass preserves the run invariant. -/
theorem invGB_subconjuntos {t0 : Tablero} {st : EstadoGB} (h : invGB t0 st) :
    invGB t0 (analizarSubconjuntos st) := by
  unfold analizarSubconjuntos
  refine foldl_preserva ?_ _ _ h
  intro st i hst
  refine foldl_preserva ?_ _ _ hst
  intro st j hst2
  split
  · exact hst2
  · split
    · refine invGB_interseccion ?_ _ _ _ _
      split
      · exact invGB_aplicarSubconjunto hst2 _ _ _ _
      · split
        · exact invGB_aplicarSubconjunto hst2 _ _ _ _
        · exact hst2
    · exact hst2

/-- The 1-2-1 pattern pass preserves the run invariant. -/
theorem invGB_patron121 {t0 : Tablero} {st : EstadoGB} (h : invGB t0 st) :
    invGB t0 (buscarPatron121 st) := by
  unfold buscarPatron121
  refine foldl_preserva ?_ _ _ h
  intro st f hst
  refine foldl_preserva ?_ _ _ hst
  intro st c hst2
  refine foldl_preserva ?_ _ _ hst2
  intro st dir hst3
  obtain ⟨dx, dy⟩ := dir
  simp only []
  split
  · split
    · split
      · exact invGB_ite (invGB_fold_marcar_b _ _ hst3) hst3
      · exact hst3
    · exact hst3
  · exact hst3

/-- The shared-corner 1-1 pattern pass preserves the run invariant. -/
theorem invGB_patron11 {t0 : Tablero} {st : EstadoGB} (h : invGB t0 st) :
    invGB t0 (buscarPatron11Esquina st) := by
  unfold buscarPatron11Esquina
  refine foldl_preserva ?_ _ _ h
  intro st f hst
  refine foldl_preserva ?_ _ _ hst
  intro st c hst2
  refine foldl_preserva ?_ _ _ hst2
  intro st esq hst3
  obtain ⟨dx1, dy1, dx2, dy2⟩ := esq
  simp only []
  split
  · split
    · split
      · split
        · split
          · exact invGB_intentarMarcar hst3 _ _ _
          · exact hst3
        · exact hst3
      · exact hst3
    · exact hst3
  · exact hst3

/-- The edge-1 pattern pass preserves the run invariant. -/
theorem invGB_patronBorde {t0 : Tablero} {st : EstadoGB} (h : invGB t0 st) :
    invGB t0 (buscarPatronBorde st) := by
  unfold buscarPatronBorde
  refine foldl_preserva ?_ _ _ h
  intro st f hst
  refine foldl_preserva ?_ _ _ hst
  intro st c hst2
  split
  · split
    · split
      · exact invGB_intentarMarcar hst2 _ _ _
      · exact hst2
    · exact hst2
  · exact hst2

/-- The pattern pass preserves the run invariant. -/
theorem invGB_patrones {t0 : Tablero} {st : EstadoGB} (h : invGB t0 st) :
    invGB t0 (analizarPatrones st) :=
  invGB_patronBorde (invGB_patron11 (invGB_patron121 h))

/-- Folding an invariant-preserving `Option`-valued step preserves the
invariant on success. -/
theorem foldl_preserva_opcion {α : Type} {P : EstadoGB → Prop}
    {step : Option EstadoGB → α → Option EstadoGB}
    (hstep : ∀ ost a st', step ost a = some st' →
      (∀ st, ost = some st → P st) → P st') :
    ∀ (l : List α) (ost : Option EstadoGB),
      (∀ st, ost = some st → P st) →
      ∀ st', l.foldl step ost = some st' → P st' := by
  intro l
  induction l with
  | nil => exact fun ost h st' he => h st' he
  | cons a l ih =>
    intro ost h st' he
    exact ih (step ost a) (fun st hs => hstep ost a st hs h) st' he

/-- The equation pass preserves the run invariant whenever it returns. -/
theorem invGB_sistemas {t0 : Tablero} {st st' : EstadoGB}
    (he : analizarSistemasEcuaciones st = some st') (h : invGB t0 st) :
    invGB t0 st' := by
  unfold analizarSistemasEcuaciones at he
  refine foldl_preserva_opcion ?_ _ _ ?_ _ he
  · intro ost g st2 hstep hP
    rcases Option.bind_eq_some.mp hstep with ⟨st1, host, hf⟩
    have hP1 := hP st1 host
    split at hf
    · split at hf
      · refine foldl_preserva_opcion ?_ _ _ ?_ _ hf
        · intro ost2 i st3 hstep2 hP2
          rcases Option.bind_eq_some.mp hstep2 with ⟨st4, host4, hf4⟩
          have hP4 := hP2 st4 host4
          split at hf4
          · split at hf4
            · split at hf4
              · rw [← Option.some_inj.mp hf4]
                exact invGB_intentarMarcar hP4 _ _ _
              · rw [← Option.some_inj.mp hf4]; exact hP4
            · exact absurd hf4 (by simp)
          · rw [← Option.some_inj.mp hf4]; exact hP4
        · intro st4 hs
          rw [← Option.some_inj.mp hs]; exact hP1
      · rw [← Option.some_inj.mp hf]; exact hP1
    · rw [← Option.some_inj.mp hf]; exact hP1
  · intro st1 hs
    rw [← Option.some_inj.mp hs]; exact h

/-- The global filter keeps a subset of its input batch. -/
theorem mem_validarConsistenciaGlobal {t : Tablero} {L : List Bandera}
    {b : Bandera} (h : b ∈ validarConsistenciaGlobal t L) : b ∈ L := by
  unfold validarConsistenciaGlobal at h
  have main : ∀ (M : List Bandera) (acc : List Bandera),
      b ∈ M.foldl (fun acc b =>
        if esConsistenteGlobal t acc b then acc ++ [b] else acc) acc →
      b ∈ acc ∨ b ∈ M := by
    intro M
    induction M with
    | nil => intro acc hb; exact Or.inl hb
    | cons x M ih =>
      intro acc hb
      simp only [List.foldl_cons] at hb
      rcases ih _ hb with hacc | hM
      · by_cases hc : esConsistenteGlobal t acc x = true
        · rw [if_pos hc] at hacc
          rcases List.mem_append.mp hacc with h1 | h1
          · exact Or.inl h1
          · have : b = x := by simpa using h1
            exact Or.inr (this ▸ List.mem_cons_self x M)
        · rw [if_neg hc] at hacc
          exact Or.inl hacc
      · exact Or.inr (List.mem_cons_of_mem x hM)
  rcases main L [] h with h1 | h1
  · exact absurd h1 (by simp)
  · exact h1

/-- **C6 (counterexample)** — the claim says a second run after applying the
first batch returns an empty batch; on `tableroNoIdempotente` the first run
flags `(2,1)` and `(3,0)`, and after applying them the second run returns a
non-empty batch flagging `(0,0)` (the equation pass concludes from the
updated remainders). -/
theorem c6_idempotencia_refutada :
    (colocarBanderasSeguras tableroNoIdempotente).map Prod.fst =
      some [⟨2, 1⟩, ⟨3, 0⟩] ∧
    ((colocarBanderasSeguras tableroNoIdempotente).bind fun r =>
      (colocarBanderasSeguras (procesarNuevasBanderas r.2 r.1)).map Prod.fst) =
      some [⟨0, 0⟩] := by
  constructor
  · decide
  · decide

/-- **C6 (amended)** — the constraint engine is not idempotent: applying the
first run's batch can enable further deductions, so a second run may return
additional flags (see `c6_idempotencia_refutada`).  What does hold of every
run on every board: each returned flag names a cell that was unrevealed and
unflagged when the run started, so in particular no run re-flags a cell its
predecessor already flagged. -/
theorem c6_lote_siempre_fresco (t : Tablero) (lote : List Bandera)
    (t' : Tablero) (h : colocarBanderasSeguras t = some (lote, t')) :
    ∀ b ∈ lote, ∃ cd, t.obtenerCelda (b.fila : ℤ) (b.columna : ℤ) = some cd ∧
      cd.tieneBandera = false ∧ cd.descubierta = false := by
  unfold colocarBanderasSeguras at h
  cases he : analizarSistemasEcuaciones
      (analizarPatrones (analizarSubconjuntos
        (analizarRestriccionesBasicas ⟨t, []⟩))) with
  | none => rw [he] at h; exact absurd h (by simp)
  | some st =>
    rw [he] at h
    simp only [Option.some_inj, Prod.mk.injEq] at h
    have hinv0 : invGB t ⟨t, []⟩ :=
      ⟨fun f c => rfl, fun b hb => absurd hb (by simp)⟩
    have hinv := invGB_sistemas he
      (invGB_patrones (invGB_subconjuntos (invGB_basicas hinv0)))
    intro b hb
    rw [← h.1] at hb
    exact hinv.2 b (mem_validarConsistenciaGlobal hb)

/-- Witness for `c6_lote_siempre_fresco`: the first run on
`tableroNoIdempotente` flags `(2,1)`, whose cell was unrevealed and unflagged. -/
theorem c6_lote_siempre_fresco_witness :
    ∃ cd, tableroNoIdempotente.obtenerCelda 2 1 = some cd ∧
      cd.tieneBandera = false ∧ cd.descubierta = false := by
  have hrun : colocarBanderasSeguras tableroNoIdempotente =
      some ([⟨2, 1⟩, ⟨3, 0⟩],
        ((colocarBanderasSeguras tableroNoIdempotente).getD
          ([], tableroNoIdempotente)).2) := by
    decide
  exact c6_lote_siempre_fresco _ _ _ hrun ⟨2, 1⟩ (by simp)

/-! ## Claim theorems: C9, C10 -/

/-- **C9** — `obtenerCelda` fails (returns `none`, the JS `null`) on every
out-of-range coordinate, and being a pure read it mutates nothing; for an
in-range cell, `establecerValorCelda` is a no-op returning `false` when the
cell is already revealed, and otherwise sets the value, marks the cell
revealed, marks the grid dirty, and returns `true`. -/
theorem c9_obtener_establecer (t : Tablero) (f c : ℤ) (v : Valor) :
    (t.esPosicionValida f c = false → t.obtenerCelda f c = none) ∧
    (∀ cd, t.obtenerCelda f c = some cd → cd.descubierta = true →
      t.establecerValorCelda f c v = (t, false)) ∧
    (∀ cd, t.obtenerCelda f c = some cd → cd.descubierta = false →
      (t.establecerValorCelda f c v).2 = true ∧
      (t.establecerValorCelda f c v).1.obtenerCelda f c =
        some (cd.establecerValor v) ∧
      (cd.establecerValor v).valor = some v ∧
      (cd.establecerValor v).descubierta = true ∧
      (t.establecerValorCelda f c v).1.restriccionesActualizadas = false) := by
  refine ⟨?_, ?_, ?_⟩
  · intro hinval
    unfold Tablero.obtenerCelda
    rw [if_neg (by simp [hinval])]
  · intro cd hget hdesc
    unfold Tablero.establecerValorCelda
    rw [hget]
    simp [hdesc]
  · intro cd hget hdesc
    have hval := Tablero.obtenerCelda_valida hget
    have hge : f ≥ 0 ∧ c ≥ 0 := by
      unfold Tablero.esPosicionValida at hval
      simp only [decide_eq_true_eq] at hval
      exact ⟨hval.1, hval.2.2.1⟩
    have hres : t.establecerValorCelda f c v =
        ({ t.modificarCelda f.toNat c.toNat (fun cx => cx.establecerValor v) with
            contadorDescubiertas := t.contadorDescubiertas + 1,
            ultimoCambio := .descubierta f.toNat c.toNat v,
            restriccionesActualizadas := false }, true) := by
      unfold Tablero.establecerValorCelda
      rw [hget]
      simp [hdesc]
    refine ⟨by rw [hres], ?_, rfl, rfl, by rw [hres]⟩
    rw [hres]
    have hmod :
        (Tablero.obtenerCelda
          { t.modificarCelda f.toNat c.toNat (fun cx => cx.establecerValor v) with
            contadorDescubiertas := t.contadorDescubiertas + 1,
            ultimoCambio := .descubierta f.toNat c.toNat v,
            restriccionesActualizadas := false } f c) =
        (t.modificarCelda f.toNat c.toNat (fun cx => cx.establecerValor v)).obtenerCelda f c := rfl
    rw [hmod, Tablero.obtenerCelda_modificarCelda]
    rw [if_pos (by omega), hget]
    rfl

/-- Witness for `c9_obtener_establecer`: on a fresh 2×2 board, position
`(5, 0)` is invalid so the lookup fails, and revealing `(0, 0)` with value `1`
succeeds, after which revealing it again is a rejected no-op. -/
theorem c9_obtener_establecer_witness :
    (Tablero.crear 2 2).obtenerCelda 5 0 = none ∧
    ((Tablero.crear 2 2).establecerValorCelda 0 0 (.num 1)).2 = true ∧
    (((Tablero.crear 2 2).establecerValorCelda 0 0 (.num 1)).1.establecerValorCelda
        0 0 (.num 1)) =
      (((Tablero.crear 2 2).establecerValorCelda 0 0 (.num 1)).1, false) := by
  refine ⟨(c9_obtener_establecer (Tablero.crear 2 2) 5 0 (.num 1)).1 (by decide), ?_, ?_⟩
  · exact ((c9_obtener_establecer (Tablero.crear 2 2) 0 0 (.num 1)).2.2
      (Tablero.celdaInicial 2 2 0 0) (by decide) (by decide)).1
  · exact (c9_obtener_establecer _ 0 0 (.num 1)).2.1
      ((Tablero.celdaInicial 2 2 0 0).establecerValor (.num 1)) (by decide) (by decide)

/-- **C10 (counterexample)** — the claim says removing a flag "changes only the
flag bit and decrements the flag counter"; in fact `establecerBandera(…, false)`
also marks the grid's constraints stale: on a 1×1 board with its cell flagged
and `restriccionesActualizadas = true`, the dirty flag flips to `false`. -/
theorem c10_solo_bandera_y_contador_refutado :
    (let t0 : Tablero :=
      { ((Tablero.crear 1 1).establecerBandera 0 0 true).1 with
        restriccionesActualizadas := true }
     t0.restriccionesActualizadas = true ∧
     (t0.establecerBandera 0 0 false).1.restriccionesActualizadas = false) := by
  constructor
  · rfl
  · decide

/-- **C10 (amended)** — removing a flag from an unrevealed flagged cell returns
`true`, clears the flag bit, decrements the flag counter, records the change
and marks the constraints stale; the cell's probability record is left
untouched (so a `(1, 1, bandera)` record persists) and every other cell is
unchanged, hence the cell still reports as a certain mine. -/
theorem c10_quitar_bandera_preserva_probabilidades (t : Tablero) (f c : ℤ)
    (cd : Celda) (hget : t.obtenerCelda f c = some cd)
    (hdesc : cd.descubierta = false) (hband : cd.tieneBandera = true) :
    (t.establecerBandera f c false).2 = true ∧
    (t.establecerBandera f c false).1.obtenerCelda f c =
      some (cd.establecerBandera false) ∧
    (cd.establecerBandera false).probabilidades = cd.probabilidades ∧
    (cd.establecerBandera false).tieneBandera = false ∧
    (cd.establecerBandera false).descubierta = cd.descubierta ∧
    (t.establecerBandera f c false).1.contadorBanderas = t.contadorBanderas - 1 ∧
    (cd.es100PorCientoMina → (cd.establecerBandera false).es100PorCientoMina) ∧
    (∀ f' c', ¬(f' = f ∧ c' = c) →
      (t.establecerBandera f c false).1.obtenerCelda f' c' = t.obtenerCelda f' c') := by
  have hval := Tablero.obtenerCelda_valida hget
  have hge : f ≥ 0 ∧ c ≥ 0 := by
    unfold Tablero.esPosicionValida at hval
    simp only [decide_eq_true_eq] at hval
    exact ⟨hval.1, hval.2.2.1⟩
  have hres : t.establecerBandera f c false =
      ({ t.modificarCelda f.toNat c.toNat (fun cx => cx.establecerBandera false) with
          contadorBanderas := t.contadorBanderas + (if false then 1 else -1),
          ultimoCambio := .bandera f.toNat c.toNat false,
          restriccionesActualizadas := false }, true) := by
    unfold Tablero.establecerBandera
    rw [hget]
    simp [hdesc, hband]
  refine ⟨by rw [hres], ?_, ?_, rfl, rfl, by rw [hres]; simp; omega, ?_, ?_⟩
  · rw [hres]
    have hmod :
        (Tablero.obtenerCelda
          { t.modificarCelda f.toNat c.toNat (fun cx => cx.establecerBandera false) with
            contadorBanderas := t.contadorBanderas + (if false then 1 else -1),
            ultimoCambio := .bandera f.toNat c.toNat false,
            restriccionesActualizadas := false } f c) =
        (t.modificarCelda f.toNat c.toNat
          (fun cx => cx.establecerBandera false)).obtenerCelda f c := rfl
    rw [hmod, Tablero.obtenerCelda_modificarCelda, if_pos (by omega), hget]
    rfl
  · unfold Celda.establecerBandera
    simp
  · intro h100
    have hp : (cd.establecerBandera false).probabilidades = cd.probabilidades := by
      unfold Celda.establecerBandera
      simp
    simp only [Celda.es100PorCientoMina, hp] at h100 ⊢
    exact h100
  · intro f' c' hne
    rw [hres]
    have hmod :
        (Tablero.obtenerCelda
          { t.modificarCelda f.toNat c.toNat (fun cx => cx.establecerBandera false) with
            contadorBanderas := t.contadorBanderas + (if false then 1 else -1),
            ultimoCambio := .bandera f.toNat c.toNat false,
            restriccionesActualizadas := false } f' c') =
        (t.modificarCelda f.toNat c.toNat
          (fun cx => cx.establecerBandera false)).obtenerCelda f' c' := rfl
    rw [hmod, Tablero.obtenerCelda_modificarCelda, if_neg]
    intro ⟨h1, h2⟩
    exact hne ⟨by omega, by omega⟩

/-- Witness for `c10_quitar_bandera_preserva_probabilidades`: flag then unflag
the single cell of a 1×1 board; the cell still reports as a certain mine. -/
theorem c10_quitar_bandera_witness :
    (let t1 := ((Tablero.crear 1 1).establecerBandera 0 0 true).1
     let cd := (Tablero.celdaInicial 1 1 0 0).establecerBandera true
     (t1.establecerBandera 0 0 false).2 = true ∧
     (cd.establecerBandera false).probabilidades = cd.probabilidades ∧
     (cd.establecerBandera false).es100PorCientoMina = true) := by
  have h := c10_quitar_bandera_preserva_probabilidades
    ((Tablero.crear 1 1).establecerBandera 0 0 true).1 0 0
    ((Tablero.celdaInicial 1 1 0 0).establecerBandera true)
    (by decide) (by decide) (by decide)
  refine ⟨h.1, h.2.2.1, ?_⟩
  have := h.2.2.2.2.2.2.1 (by decide)
  simpa using this

end Buscaminas

/-! ## Claim theorems: C3 and C4 -/

namespace Buscaminas

/-- **C3** — The spec asserts every stored mine probability and confidence
stays within `[0, 1]` across reveal/flag mutations and engine runs; the code
refutes it.  On the reachable 1×5 board with `(0,1)` revealed `2` and `(0,3)`
revealed `1`, a single probability-engine pass leaves cell `(0,0)` with stored
probability `2`: `calcularProbabilidadesLocales` divides the restriction's
remaining mines (2) by its group's size (1) with no clamp, stores it at
confidence `0.8` under provenance `restricciones`, and no later stage may
overwrite it (equal confidence, lower provenance). -/
theorem c3_probabilidad_fuera_de_rango :
    resumenCelda (calcularProbabilidades tableroUnoPorCinco) 0 0 =
      some (2, 4 / 5, .restricciones) ∧
    ¬(probabilidadMinaDe (calcularProbabilidades tableroUnoPorCinco) 0 0 ≤ 1) := by
  decide

/-- **C4** — The normalization stage never stores its rescaled value, so the
claimed rescale-and-store behaviour fails whenever it would matter: an update
at unchanged confidence with provenance `normalizado` (rank 0 in the
`jerarquia` table) is always rejected by `actualizarProbabilidades` — shown in
general for every cell, and on the stage-five state of `tableroUnoPorCinco`,
where the deviation guard holds (mass 4 against the density-implied single
mine, `|4 - 1| > 0.5·1`), `normalizarProbabilidades` returns the board
unchanged, and the stored probability of `(0,0)` stays `2` although the
claim's clamped rescaled value is `min 0.95 (max 0.05 (2·(1/4))) = 1/2`. -/
theorem c4_normalizacion_nunca_almacena :
    (∀ (cd : Celda) (p : ℚ),
      cd.actualizarProbabilidades p cd.probabilidades.confianza .normalizado = cd) ∧
    tableroUnoPorCinco.obtenerCeldasSinRevolar.foldl
      (fun acc cel => acc + probabilidadMinaDe etapaCincoUnoPorCinco
        cel.fila cel.columna) 0 = 4 ∧
    |(4 : ℚ) - 1| > 0.5 * 1 ∧
    normalizarProbabilidades etapaCincoUnoPorCinco
      tableroUnoPorCinco.obtenerCeldasSinRevolar = etapaCincoUnoPorCinco ∧
    probabilidadMinaDe etapaCincoUnoPorCinco 0 0 = 2 ∧
    min 0.95 (max 0.05 ((2 : ℚ) * (1 / max 0.1 4))) = 1 / 2 ∧
    ((2 : ℚ) ≠ 1 / 2) := by
  refine ⟨fun cd p => ?_, by decide, by decide, by decide, by decide, by decide,
    by decide⟩
  have hc : ¬(cd.probabilidades.confianza > cd.probabilidades.confianza ∨
      (cd.probabilidades.confianza = cd.probabilidades.confianza ∧
       esOrigenMasConfiable .normalizado cd.probabilidades.origen)) := by
    rintro (hlt | ⟨-, hje⟩)
    · exact lt_irrefl _ hlt
    · exact absurd (of_decide_eq_true hje) (Nat.not_lt_zero _)
  unfold Celda.actualizarProbabilidades
  rw [if_neg hc]

end Buscaminas

/-! ## Claim theorems: C5 -/

namespace Buscaminas

/-- Members of `generarCombinaciones n` hold only bits, so any `getD` read of
one of them yields `0` or `1`. -/
theorem generarCombinaciones_getD (n i : ℕ) (cb : List ℕ)
    (hcb : cb ∈ generarCombinaciones n) : cb.getD i 0 = 0 ∨ cb.getD i 0 = 1 := by
  unfold generarCombinaciones at hcb
  by_cases hn : n > 10
  · rw [if_pos hn] at hcb
    exact absurd hcb (by simp)
  · rw [if_neg hn] at hcb
    obtain ⟨k, -, rfl⟩ := List.mem_map.mp hcb
    rcases Nat.lt_or_ge i n with hi | hi
    · rw [List.getD_eq_getElem?_getD, List.getElem?_map, List.getElem?_range hi]
      by_cases hb : k.testBit i
      · right; simp [hb]
      · left; simp [hb]
    · rw [List.getD_eq_getElem?_getD, List.getElem?_map,
        List.getElem?_eq_none (by simpa using hi)]
      left; rfl

/-- Folding `+ getD i` over a list of bit vectors counts the vectors whose
`i`-th bit is set. -/
theorem foldl_suma_bits (i : ℕ) (l : List (List ℕ))
    (hl : ∀ cb ∈ l, cb.getD i 0 = 0 ∨ cb.getD i 0 = 1) : ∀ a : ℕ,
    l.foldl (fun acc cb => acc + cb.getD i 0) a =
      a + (l.filter fun cb => cb.getD i 0 == 1).length := by
  induction l with
  | nil => intro a; simp
  | cons cb rest ih =>
    intro a
    rw [List.foldl_cons, List.filter_cons,
      ih (fun x hx => hl x (List.mem_cons_of_mem _ hx))]
    rcases hl cb (List.mem_cons_self cb rest) with h | h <;> rw [h] <;> simp <;> omega

/-- The numerator of the enumeration's average is the count of consistent
assignments whose `i`-th cell holds a mine. -/
theorem suma_bits_combinaciones (n i : ℕ) (p : List ℕ → Bool) :
    ((generarCombinaciones n).filter p).foldl (fun acc cb => acc + cb.getD i 0) 0 =
      (((generarCombinaciones n).filter p).filter fun cb => cb.getD i 0 == 1).length := by
  rw [foldl_suma_bits i _ (fun cb hcb =>
    generarCombinaciones_getD n i cb (List.mem_of_mem_filter hcb)) 0, Nat.zero_add]

/-- **C5** (amended) — For every board and every connected component of at
most 10 cells on which the enumeration succeeds, each entry of its result is
exactly the fraction of constraint-consistent assignments that put a mine on
that cell (the spec-side reading `fraccionConsistenteConMina`).  The sampled
path above 10 cells draws from `Math.random` and is outside this embedding;
storage of the result is a separate, conditional step (see the
counterexample). -/
theorem c5_enumeracion_es_fraccion (t : Tablero) (g : GrupoMotor)
    (probs : List ℚ) (h10 : g.celdas.length ≤ 10)
    (h : calcularProbabilidadesPorEnumeracion t g = some probs)
    (i : ℕ) (hi : i < g.celdas.length) :
    probs.getD i 0 = fraccionConsistenteConMina t g i := by
  unfold calcularProbabilidadesPorEnumeracion at h
  rw [if_neg (by omega)] at h
  simp only [] at h
  split at h
  · rw [Option.some_inj] at h
    subst h
    rw [List.getD_eq_getElem?_getD, List.getElem?_map, List.getElem?_range hi,
      Option.map_some', Option.getD_some]
    unfold fraccionConsistenteConMina
    simp only []
    rw [suma_bits_combinaciones]
  · exact absurd h (by simp)

/-- Witness for `c5_enumeracion_es_fraccion`: on the single component of the
1×5 board the enumeration returns `[1, 1, 0]`, and the entry of cell `(0,0)`
equals the consistent-assignment fraction (one assignment, mine present). -/
theorem c5_enumeracion_es_fraccion_witness :
    [(1 : ℚ), 1, 0].getD 0 0 =
      fraccionConsistenteConMina tableroUnoPorCinco grupoUnoPorCinco 0 :=
  c5_enumeracion_es_fraccion tableroUnoPorCinco grupoUnoPorCinco [1, 1, 0]
    (by decide) (by decide) 0 (by decide)

/-- **C5** (counterexample) — "sets each cell's probability to the fraction …
with stored confidence 0.8" fails: on `tableroUnoPorCinco` the component is
the three unrevealed cells, the enumeration computes fraction `1` for cell
`(0,0)` and the engine offers it at confidence `0.8`, yet after the full pass
the stored probability of `(0,0)` is still `2` at confidence `0.8` under
provenance `restricciones` — the offer loses the equal-confidence provenance
comparison, so nothing is set. -/
theorem c5_fraccion_no_almacenada :
    calcularProbabilidadesPorEnumeracion tableroUnoPorCinco grupoUnoPorCinco =
      some [1, 1, 0] ∧
    (grupoUnoPorCinco.celdas.map fun cd => (cd.fila, cd.columna)) =
      [(0, 0), (0, 2), (0, 4)] ∧
    resumenCelda (calcularProbabilidades tableroUnoPorCinco) 0 0 =
      some (2, 4 / 5, .restricciones) ∧ ((2 : ℚ) ≠ 1) := by
  decide

end Buscaminas

/-! ## Claim theorems: C7 -/

namespace Buscaminas

/-- `Math.floor(oc * 0.7)` on a natural count is `oc·7 / 10` in natural
division. -/
theorem toNat_floor_siete_decimos (n : ℕ) :
    (⌊(n : ℚ) * 0.7⌋).toNat = n * 7 / 10 := by
  have h : (n : ℚ) * 0.7 = ((n * 7 : ℕ) : ℚ) / ((10 : ℕ) : ℚ) := by
    push_cast
    norm_num
    ring
  rw [h, Int.floor_toNat, Nat.floor_div_eq_div]

/-- `Math.floor(oc * 0.5)` on a natural count is `oc / 2` in natural
division. -/
theorem toNat_floor_un_medio (n : ℕ) :
    (⌊(n : ℚ) * 0.5⌋).toNat = n / 2 := by
  have h : (n : ℚ) * 0.5 = ((n : ℕ) : ℚ) / ((2 : ℕ) : ℚ) := by
    push_cast
    norm_num
    ring
  rw [h, Int.floor_toNat, Nat.floor_div_eq_div]

/-- The attenuation map in natural arithmetic: every record keeps
`max 1 (oc·7/10)` occurrences and loses its recency. -/
theorem atenuar_formula (g : GestorMemoria) :
    (atenuarMemoriaAntigua g).mapaMinasConocidas =
      g.mapaMinasConocidas.map (fun par =>
        (par.1, ⟨max 1 (par.2.ocurrencias * 7 / 10), false⟩)) := by
  unfold atenuarMemoriaAntigua
  exact List.map_congr_left fun par _ => by rw [toNat_floor_siete_decimos]

/-- After changes were detected, reads through `obtenerMapaMinasConocidas` see
the halved (floored at 1) view. -/
theorem obtener_mapa_formula (g : GestorMemoria) (hd : g.cambiosDetectados = true) :
    obtenerMapaMinasConocidas g =
      g.mapaMinasConocidas.map (fun par =>
        (par.1, ⟨max 1 (par.2.ocurrencias / 2), false⟩)) := by
  unfold obtenerMapaMinasConocidas
  rw [if_pos hd]
  exact List.map_congr_left fun par _ => by rw [toNat_floor_un_medio]

/-- Once the counter is at least 3 and the flag is up, one more
`registrarContradiccion` keeps both. -/
theorem registrar_mantiene_detectado (g : GestorMemoria) (tipo : ℕ)
    (h3 : 3 ≤ g.contadorCambios) :
    (registrarContradiccion g tipo).cambiosDetectados = true ∧
    3 ≤ (registrarContradiccion g tipo).contadorCambios := by
  unfold registrarContradiccion
  simp only []
  rw [if_pos (by omega : g.contadorCambios + 1 ≥ 3)]
  refine ⟨rfl, ?_⟩
  show 3 ≤ g.contadorCambios + 1
  omega

/-- The `cambiosDetectados` flag survives any further sequence of recorded
contradictions. -/
theorem foldl_registrar_detectado (tipos : List ℕ) :
    ∀ g : GestorMemoria, 3 ≤ g.contadorCambios → g.cambiosDetectados = true →
      (tipos.foldl registrarContradiccion g).cambiosDetectados = true := by
  induction tipos with
  | nil => exact fun g _ hd => hd
  | cons t rest ih =>
    intro g h3 hd
    have h := registrar_mantiene_detectado g t h3
    exact ih _ h.2 h.1

/-- **C7** (amended) — In a fresh session (counter 0, empty ring, flag down):
the "changes detected" flag is still down after one and after two recorded
contradictions, comes up at exactly the third, and stays up under every
further sequence of contradictions; the third contradiction attenuates every
known-mine record to `max 1 (oc·7/10)` occurrences with recency cleared;
subsequent reads through `obtenerMapaMinasConocidas` return the further halved
view `max 1 (oc/2)` while the stored map itself keeps the attenuated counts
(reads are pure); the read is strictly below the stored count whenever the
stored count is at least 2 — not in general (see the counterexample). -/
theorem c7_tres_contradicciones (g : GestorMemoria) (t1 t2 t3 : ℕ)
    (h0 : g.contadorCambios = 0) (hh : g.historialCambios = [])
    (hf : g.cambiosDetectados = false) :
    (registrarContradiccion g t1).cambiosDetectados = false ∧
    (registrarContradiccion (registrarContradiccion g t1) t2).cambiosDetectados
      = false ∧
    (trasTresContradicciones g t1 t2 t3).cambiosDetectados = true ∧
    (trasTresContradicciones g t1 t2 t3).mapaMinasConocidas =
      g.mapaMinasConocidas.map (fun par =>
        (par.1, ⟨max 1 (par.2.ocurrencias * 7 / 10), false⟩)) ∧
    (∀ tipos : List ℕ, (tipos.foldl registrarContradiccion
      (trasTresContradicciones g t1 t2 t3)).cambiosDetectados = true) ∧
    obtenerMapaMinasConocidas (trasTresContradicciones g t1 t2 t3) =
      (trasTresContradicciones g t1 t2 t3).mapaMinasConocidas.map (fun par =>
        (par.1, ⟨max 1 (par.2.ocurrencias / 2), false⟩)) ∧
    (∀ m : MinaConocida, 2 ≤ m.ocurrencias →
      max 1 (m.ocurrencias / 2) < m.ocurrencias) := by
  obtain ⟨mapa, cont, hist, det⟩ := g
  simp only [] at h0 hh hf
  subst h0
  subst hh
  subst hf
  refine ⟨rfl, rfl, rfl, ?_, ?_, ?_, ?_⟩
  · exact atenuar_formula ⟨mapa, 3, [t1, t2, t3], true⟩
  · intro tipos
    exact foldl_registrar_detectado tipos _ (by exact le_refl 3) rfl
  · exact obtener_mapa_formula _ rfl
  · intro m h2
    have h1 : 1 ≤ m.ocurrencias / 2 := by omega
    rw [Nat.max_eq_right h1]
    omega

/-- Witness for `c7_tres_contradicciones`: a session holding one record with
five occurrences; the third contradiction attenuates it to 3 and reads then
see 1. -/
theorem c7_tres_contradicciones_witness :
    (registrarContradiccion ⟨[((1, 2), ⟨5, true⟩)], 0, [], false⟩
      0).cambiosDetectados = false ∧
    (registrarContradiccion (registrarContradiccion
      ⟨[((1, 2), ⟨5, true⟩)], 0, [], false⟩ 0) 1).cambiosDetectados = false ∧
    (trasTresContradicciones ⟨[((1, 2), ⟨5, true⟩)], 0, [], false⟩
      0 1 2).cambiosDetectados = true ∧
    (trasTresContradicciones ⟨[((1, 2), ⟨5, true⟩)], 0, [], false⟩
      0 1 2).mapaMinasConocidas =
      [((1, 2), (⟨5, true⟩ : MinaConocida))].map (fun par =>
        (par.1, ⟨max 1 (par.2.ocurrencias * 7 / 10), false⟩)) ∧
    (∀ tipos : List ℕ, (tipos.foldl registrarContradiccion
      (trasTresContradicciones ⟨[((1, 2), ⟨5, true⟩)], 0, [], false⟩
        0 1 2)).cambiosDetectados = true) ∧
    obtenerMapaMinasConocidas (trasTresContradicciones
      ⟨[((1, 2), ⟨5, true⟩)], 0, [], false⟩ 0 1 2) =
      (trasTresContradicciones ⟨[((1, 2), ⟨5, true⟩)], 0, [], false⟩
        0 1 2).mapaMinasConocidas.map (fun par =>
        (par.1, ⟨max 1 (par.2.ocurrencias / 2), false⟩)) ∧
    (∀ m : MinaConocida, 2 ≤ m.ocurrencias →
      max 1 (m.ocurrencias / 2) < m.ocurrencias) :=
  c7_tres_contradicciones ⟨[((1, 2), ⟨5, true⟩)], 0, [], false⟩ 0 1 2 rfl rfl rfl

/-- **C7** (counterexample) — "every subsequent read … returns strictly
decreased counts" fails at a record of one occurrence: after three recorded
contradictions the stored count is `max 1 ⌊1·0.7⌋ = 1` and the read view is
`max 1 ⌊1·0.5⌋ = 1`, not strictly less. -/
theorem c7_lectura_no_decrece_refutada :
    obtenerMapaMinasConocidas (trasTresContradicciones
      ⟨[((2, 3), ⟨1, true⟩)], 0, [], false⟩ 0 0 0) = [((2, 3), ⟨1, false⟩)] ∧
    (trasTresContradicciones ⟨[((2, 3), ⟨1, true⟩)], 0, [], false⟩
      0 0 0).mapaMinasConocidas = [((2, 3), ⟨1, false⟩)] ∧
    ¬((1 : ℕ) < 1) := by
  decide

end Buscaminas

/-! ## Claim theorems: C8 -/

namespace Buscaminas

/-- With no memory handed in, `calcularProbabilidades` is exactly the
six-stage composition on the snapshot of unrevealed cells. -/
theorem calcular_es_etapas (t : Tablero) :
    calcularProbabilidades t none =
      ajustarCasosEspeciales (normalizarProbabilidades (identificarCasosConCerteza
        (calcularProbabilidadesFrontera (calcularProbabilidadesGlobales
          (calcularProbabilidadesLocales (inicializarProbabilidadesBase t
            t.obtenerCeldasSinRevolar) t.obtenerCeldasSinRevolar)
          t.obtenerCeldasSinRevolar) t.obtenerCeldasSinRevolar)
        t.obtenerCeldasSinRevolar) t.obtenerCeldasSinRevolar)
      t.obtenerCeldasSinRevolar := rfl

/-- The first six stages on the 8×8 corner board evaluate to the literal
`tableroEsquinaEtapaSeis`. -/
theorem etapas_seis_esquina_eval :
    normalizarProbabilidades (identificarCasosConCerteza
      (calcularProbabilidadesFrontera (calcularProbabilidadesGlobales
        (calcularProbabilidadesLocales (inicializarProbabilidadesBase
          tableroEsquinaOchoPorOcho tableroEsquinaOchoPorOcho.obtenerCeldasSinRevolar)
          tableroEsquinaOchoPorOcho.obtenerCeldasSinRevolar)
        tableroEsquinaOchoPorOcho.obtenerCeldasSinRevolar)
        tableroEsquinaOchoPorOcho.obtenerCeldasSinRevolar)
      tableroEsquinaOchoPorOcho.obtenerCeldasSinRevolar)
      tableroEsquinaOchoPorOcho.obtenerCeldasSinRevolar = tableroEsquinaEtapaSeis := by
  decide

/-- **C8** (counterexample) — "all 8 neighbors of (0,0)" does not describe the
board: the corner `(0,0)` of the 8×8 grid has exactly three in-bounds
neighbours, `(0,1)`, `(1,0)` and `(1,1)`. -/
theorem c8_ocho_vecinos_refutado :
    ((tableroEsquinaOchoPorOcho.obtenerCeldasAdyacentes 0 0).map fun cd =>
      (cd.fila, cd.columna)) = [(0, 1), (1, 0), (1, 1)] ∧
    (tableroEsquinaOchoPorOcho.obtenerCeldasAdyacentes 0 0).length ≠ 8 := by
  decide

/-- **C8** (amended) — On the 8×8 grid with `(0,0)` revealed `0`, after the
next probability-engine pass each of the three actual neighbours of `(0,0)`
holds probability 0 at confidence 1 under provenance `analisis100` (the
absolute override of `ajustarCasosEspeciales` for cells adjacent to a revealed
zero). -/
theorem c8_vecinos_esquina_cero_seguros :
    resumenCelda (calcularProbabilidades tableroEsquinaOchoPorOcho) 0 1 =
      some (0, 1, .analisis100) ∧
    resumenCelda (calcularProbabilidades tableroEsquinaOchoPorOcho) 1 0 =
      some (0, 1, .analisis100) ∧
    resumenCelda (calcularProbabilidades tableroEsquinaOchoPorOcho) 1 1 =
      some (0, 1, .analisis100) := by
  rw [calcular_es_etapas, etapas_seis_esquina_eval]
  decide

end Buscaminas
